import Mathlib

set_option maxRecDepth 100000

/-!
Verification of the TAD generation pipeline (backend/app/services) against its
natural-language specification.  The Python services are shallowly embedded as
executable Lean definitions: pure transformations become Lean functions, the
external collaborators (embedding, retrieval, generation) become function
parameters returning `Except`, wall-clock reads become explicit `now`
arguments, and Python floats are modelled as exact rationals.
-/

/-! ## Python string primitives -/

/-- Python whitespace (`str.strip`, `\s`): space, tab, newline, CR, VT, FF. -/
def pySpace (c : Char) : Bool :=
  c = ' ' || c = '\t' || c = '\n' || c = '\r' || c = '\x0b' || c = '\x0c'

def pyStripList (l : List Char) : List Char :=
  ((l.dropWhile pySpace).reverse.dropWhile pySpace).reverse

/-- Python `str.strip()`. -/
def pyStrip (s : String) : String := String.mk (pyStripList s.data)

/-- Does `l` start with `pat` (exact characters)? -/
def listStarts : List Char → List Char → Bool
  | [], _ => true
  | _ :: _, [] => false
  | p :: ps, c :: cs => p = c && listStarts ps cs

/-- Does `l` contain `pat` as a contiguous sublist?  Models Python `in` on strings. -/
def listContains (pat : List Char) : List Char → Bool
  | [] => listStarts pat []
  | c :: cs => listStarts pat (c :: cs) || listContains pat (cs)

/-- Python `pat in s` (substring test). -/
def strContains (s pat : String) : Bool := listContains pat.data s.data

/-- Case-insensitive prefix test; `pat` is given in lowercase. -/
def ciStarts : List Char → List Char → Bool
  | [], _ => true
  | _ :: _, [] => false
  | p :: ps, c :: cs => c.toLower = p && ciStarts ps cs

/-- Python `str.split()` with no argument: split on whitespace runs, dropping empties. -/
def pySplitWsAux : List Char → List Char → List String
  | acc, [] => if acc.isEmpty then [] else [String.mk acc.reverse]
  | acc, c :: cs =>
    if pySpace c then
      if acc.isEmpty then pySplitWsAux [] cs
      else String.mk acc.reverse :: pySplitWsAux [] cs
    else pySplitWsAux (c :: acc) cs

def pySplitWs (s : String) : List String := pySplitWsAux [] s.data

/-- Python `str.lower()` (ASCII inputs). -/
def pyLower (s : String) : String := String.mk (s.data.map Char.toLower)

/-- Python `str.upper()` (ASCII inputs). -/
def pyUpper (s : String) : String := String.mk (s.data.map Char.toUpper)

/-- Python `str.split(sep)` for a non-empty separator: non-overlapping,
left-to-right, keeping empties.  The fuel argument (one per consumed
character) keeps the recursion structural. -/
def pySplitOnFuel (sep : List Char) : Nat → List Char → List Char → List String
  | 0, acc, _ => [String.mk acc.reverse]
  | _ + 1, acc, [] => [String.mk acc.reverse]
  | fuel + 1, acc, c :: cs =>
    if !sep.isEmpty && listStarts sep (c :: cs) then
      String.mk acc.reverse :: pySplitOnFuel sep fuel [] ((c :: cs).drop sep.length)
    else pySplitOnFuel sep fuel (c :: acc) cs

def pySplitOn (s sep : String) : List String :=
  pySplitOnFuel sep.data (s.data.length + 1) [] s.data

/-- Python `str.replace(old, new)` for a non-empty `old`. -/
def pyReplace (s old new : String) : String :=
  String.intercalate new (pySplitOn s old)

/-- Python `max` on two naturals, kept kernel-reducible. -/
def pyMaxNat (a b : Nat) : Nat := if a < b then b else a

/-- Python `min` on two floats (modelled on ℚ), kept kernel-reducible. -/
def pyMinQ (a b : ℚ) : ℚ := if a ≤ b then a else b

/-- Python `max` on two floats (modelled on ℚ), kept kernel-reducible. -/
def pyMaxQ (a b : ℚ) : ℚ := if b ≤ a then a else b

/-! ## Context Normalization Service (context_normalizer.py) -/

structure Stakeholder where
  name : String
  role : String
deriving DecidableEq, Repr

/-- A raw field that Python may receive either as a string or as a list. -/
inductive StrOrList where
  | str (s : String)
  | lst (l : List String)
deriving DecidableEq, Repr

inductive StakeholdersRaw where
  | str (s : String)
  | lst (l : List Stakeholder)
deriving DecidableEq, Repr

/-- The raw-requirements input dict, with each optional key typed as the
normalizer consumes it (`none` models an absent key). -/
structure RawRequirements where
  project_name : Option String := none
  description : Option String := none
  cloud_region : Option String := none
  business_line : Option String := none
  region : Option String := none
  environments : Option StrOrList := none
  functional_requirements : Option StrOrList := none
  non_functional_requirements : Option StrOrList := none
  constraints : Option StrOrList := none
  assumptions : Option StrOrList := none
  risks : Option StrOrList := none
  stakeholders : Option StakeholdersRaw := none
  analysis : Option String := none
  owner : Option String := none
  cost_center : Option String := none
  secondary_region : Option String := none
  high_availability : Option Bool := none
  disaster_recovery : Option Bool := none
  multi_region : Option Bool := none
deriving DecidableEq

/-- Python truthiness of `raw.get(field)` for a string-valued field. -/
def optTruthyStr : Option String → Bool
  | none => false
  | some s => s != ""

def optTruthySL : Option StrOrList → Bool
  | none => false
  | some (.str s) => s != ""
  | some (.lst l) => !l.isEmpty

def optTruthyStak : Option StakeholdersRaw → Bool
  | none => false
  | some (.str s) => s != ""
  | some (.lst l) => !l.isEmpty

def takeNonNl (l : List Char) : List Char := l.takeWhile (fun c => c != '\n')

/-- After the matched keyword and colon: `\s*([^\n]+)` with greedy `\s*`
(backtracking one step when the remainder is exhausted). -/
def grabAfterSpaces : List Char → Option (List Char)
  | [] => none
  | c :: cs =>
    if pySpace c then
      match grabAfterSpaces cs with
      | some g => some g
      | none => if c != '\n' then some (takeNonNl (c :: cs)) else none
    else some (takeNonNl (c :: cs))

/-- `re.search(r'(?:Project|Application|System):\s*([^\n]+)', _, re.IGNORECASE)`:
scan left to right; at each position try the three keywords then the group. -/
def extractProjectNameScan : List Char → Option (List Char)
  | [] => none
  | c :: cs =>
    let here :=
      if ciStarts "project:".data (c :: cs) then grabAfterSpaces ((c :: cs).drop 8)
      else if ciStarts "application:".data (c :: cs) then grabAfterSpaces ((c :: cs).drop 12)
      else if ciStarts "system:".data (c :: cs) then grabAfterSpaces ((c :: cs).drop 7)
      else none
    match here with
    | some g => some g
    | none => extractProjectNameScan cs

def extractedProjectName (analysisText : String) : String :=
  match extractProjectNameScan analysisText.data with
  | some g => pyStrip (String.mk g)
  | none => "Project"

/-- `_normalize_project_info`, project-name part: direct field, else analysis
extraction, else the default `"Project"`. -/
def projectNameRaw (raw : RawRequirements) : String :=
  let p0 := raw.project_name.getD ""
  let p1 :=
    if p0 = "" ∧ raw.analysis.isSome then extractedProjectName (raw.analysis.getD "")
    else p0
  if p1 = "" then "Project" else p1

def commonWords : List String := ["platform", "system", "service", "application", "portal"]

/-- `_extract_acronym`: drop stopwords, then truncate a single word or
concatenate first letters (≤10 chars). -/
def extractAcronym (projectName : String) : String :=
  let words := pySplitWs projectName
  let filteredWords := words.filter (fun w => !(commonWords.contains (pyLower w)))
  let filteredWords := if filteredWords.isEmpty then words else filteredWords
  if filteredWords.length = 1 then
    let word := pyUpper (filteredWords.headD "")
    if word.length > 3 then String.mk (word.data.take 4) else word
  else
    let acronym := String.mk (filteredWords.map (fun w => (w.data.headD ' ').toUpper))
    String.mk (acronym.data.take 10)

/-- `_normalize_project_info`, description part: direct field, else first
non-heading paragraph of the analysis text, truncated to 500 chars. -/
def descriptionOf (raw : RawRequirements) : String :=
  let d := raw.description.getD ""
  if d = "" ∧ raw.analysis.isSome then
    let paragraphs := ((pySplitOn (raw.analysis.getD "") "\n\n").map pyStrip).filter
      (fun p => p != "" && !(listStarts ['#'] p.data))
    match paragraphs with
    | [] => d
    | p :: _ => String.mk (p.data.take 500)
  else d

structure ProjectInfo where
  name : String
  full_name : String
  description : String
  business_line : String
  region : String
  owner : String
  cost_center : String
deriving DecidableEq

def normalizeProjectInfo (raw : RawRequirements) : ProjectInfo :=
  let pnr := projectNameRaw raw
  { name := extractAcronym pnr
    full_name := pnr
    description := descriptionOf raw
    business_line := pyUpper (raw.business_line.getD "GLB")
    region := pyUpper (raw.region.getD "GLB")
    owner := raw.owner.getD ""
    cost_center := raw.cost_center.getD "" }

structure Infrastructure where
  cloud_provider : String
  primary_region : String
  secondary_region : Option String
  environments : List String
  high_availability : Bool
  disaster_recovery : Bool
  multi_region : Bool
deriving DecidableEq

def normalizeInfrastructure (raw : RawRequirements) : Infrastructure :=
  let environments :=
    match raw.environments.getD (.lst ["DEV", "PRD", "TST"]) with
    | .str s => (pySplitOn s ",").map (fun e => pyUpper (pyStrip e))
    | .lst l => l.map pyUpper
  { cloud_provider := "Azure"
    primary_region := raw.cloud_region.getD "North Europe"
    secondary_region := raw.secondary_region
    environments := environments
    high_availability := raw.high_availability.getD true
    disaster_recovery := raw.disaster_recovery.getD false
    multi_region := raw.multi_region.getD false }

structure RequirementsInfo where
  functional : List String
  non_functional : List String
  constraints : List String
  assumptions : List String
  risks : List String
deriving DecidableEq

/-- String-to-list coercion used for the five requirement fields. -/
def coerceList (v : Option StrOrList) : List String :=
  match v.getD (.lst []) with
  | .str s => ((pySplitOn s "\n").map pyStrip).filter (fun r => r != "")
  | .lst l => l

def normalizeRequirements (raw : RawRequirements) : RequirementsInfo :=
  { functional := coerceList raw.functional_requirements
    non_functional := coerceList raw.non_functional_requirements
    constraints := coerceList raw.constraints
    assumptions := coerceList raw.assumptions
    risks := coerceList raw.risks }

/-- `(.+?)\)`: minimal non-empty newline-free run before a closing paren. -/
def afterParenAux : List Char → List Char → Option (List Char)
  | _, [] => none
  | acc, c :: cs =>
    if c = ')' then some acc.reverse
    else if c = '\n' then none
    else afterParenAux (c :: acc) cs

def afterParenGroup : List Char → Option (List Char)
  | [] => none
  | c :: cs => if c = '\n' then none else afterParenAux [c] cs

/-- `\s*\((.+?)\)` at the current point (the `\s*` is effectively maximal since
a space can never satisfy the following open paren). -/
def wsParen (l : List Char) : Option (List Char) :=
  match l.dropWhile pySpace with
  | '(' :: rest => afterParenGroup rest
  | _ => none

/-- Lazy first group of `re.match(r"(.+?)\s*\((.+?)\)", s)`: grow the name one
character at a time, at each step trying the parenthesized role. -/
def stakeScan : List Char → List Char → Option (List Char × List Char)
  | acc, l =>
    match wsParen l with
    | some g2 => some (acc.reverse, g2)
    | none =>
      match l with
      | [] => none
      | c :: cs => if c = '\n' then none else stakeScan (c :: acc) cs

def stakeMatch (l : List Char) : Option (List Char × List Char) :=
  match l with
  | [] => none
  | c :: cs => if c = '\n' then none else stakeScan [c] cs

def parseStakeholderEntry (sRaw : String) : Stakeholder :=
  let s := pyStrip sRaw
  match stakeMatch s.data with
  | some (g1, g2) => { name := pyStrip (String.mk g1), role := pyStrip (String.mk g2) }
  | none => { name := s, role := "Stakeholder" }

def normalizeStakeholders (raw : RawRequirements) : List Stakeholder :=
  match raw.stakeholders.getD (.lst []) with
  | .str s => (pySplitOn s ",").map parseStakeholderEntry
  | .lst l => l

structure Completeness where
  is_complete : Bool
  score : ℚ
  missing_fields : List String
  provided_fields : Nat
  total_fields : Nat
  status : String
deriving DecidableEq

/-- `len(self.optional_fields)` — the 13 optional fields. -/
def optionalFieldsCount : Nat := 13

/-- `sum(1 for f in self.optional_fields if raw.get(f))`. -/
def providedCount (raw : RawRequirements) : Nat :=
  (if optTruthyStr raw.project_name then 1 else 0) +
  (if optTruthyStr raw.description then 1 else 0) +
  (if optTruthyStr raw.cloud_region then 1 else 0) +
  (if optTruthyStr raw.business_line then 1 else 0) +
  (if optTruthyStr raw.region then 1 else 0) +
  (if optTruthySL raw.environments then 1 else 0) +
  (if optTruthySL raw.functional_requirements then 1 else 0) +
  (if optTruthySL raw.non_functional_requirements then 1 else 0) +
  (if optTruthySL raw.constraints then 1 else 0) +
  (if optTruthySL raw.assumptions then 1 else 0) +
  (if optTruthySL raw.risks then 1 else 0) +
  (if optTruthyStak raw.stakeholders then 1 else 0) +
  (if optTruthyStr raw.analysis then 1 else 0)

/-- `_validate_completeness`. -/
def validateCompleteness (raw : RawRequirements) (project : ProjectInfo)
    (infrastructure : Infrastructure) : Completeness :=
  let hasAnalysis := optTruthyStr raw.analysis
  let hasFunc := optTruthySL raw.functional_requirements
  let hasNonFunc := optTruthySL raw.non_functional_requirements
  let hasAnyContent := hasAnalysis || hasFunc || hasNonFunc
  let missing : List String :=
    if hasAnyContent then []
    else
      (if project.full_name = "" then ["project_name"] else []) ++
      (if project.description = "" then ["description"] else []) ++
      (if infrastructure.primary_region = "" then ["cloud_region"] else [])
  let total := optionalFieldsCount
  let provided := providedCount raw + (if hasAnalysis then 5 else 0)
  let score : ℚ := pyMinQ 1 ((provided : ℚ) / ((pyMaxNat 1 total : Nat) : ℚ))
  let isComplete := hasAnyContent || (missing.isEmpty && decide ((3 / 10 : ℚ) ≤ score))
  { is_complete := isComplete
    score := score
    missing_fields := missing
    provided_fields := provided
    total_fields := total
    status := if isComplete then "READY" else "INCOMPLETE" }

structure NormMetadata where
  normalized_at : String
  source : String
deriving DecidableEq

structure NormalizedContext where
  project : ProjectInfo
  infrastructure : Infrastructure
  requirements : RequirementsInfo
  stakeholders : List Stakeholder
  completeness : Completeness
  metadata : NormMetadata
deriving DecidableEq

/-- `ContextNormalizationService.normalize`; `now` models the
`datetime.utcnow().isoformat()` wall-clock read stamped into the metadata. -/
def normalizeContext (raw : RawRequirements) (now : String) : NormalizedContext :=
  let project := normalizeProjectInfo raw
  let infrastructure := normalizeInfrastructure raw
  { project := project
    infrastructure := infrastructure
    requirements := normalizeRequirements raw
    stakeholders := normalizeStakeholders raw
    completeness := validateCompleteness raw project infrastructure
    metadata := { normalized_at := now, source := "user_input" } }

/-! ## Section schemas (section_schemas.py) -/

inductive SectionName where
  | executive_summary
  | context
  | functional_requirements
  | non_functional_requirements
  | constraints
  | assumptions
  | risks
  | solution_overview
  | component_decomposition
  | hosting
  | identity_access_management
  | network_configuration
  | security_controls
  | data_management
  | monitoring_observability
  | disaster_recovery
  | cost_estimation
  | deployment_strategy
  | adrs
deriving DecidableEq, Repr

/-- The `.value` string of each `SectionName` enum member. -/
def SectionName.value : SectionName → String
  | .executive_summary => "executive_summary"
  | .context => "context"
  | .functional_requirements => "functional_requirements"
  | .non_functional_requirements => "non_functional_requirements"
  | .constraints => "constraints"
  | .assumptions => "assumptions"
  | .risks => "risks"
  | .solution_overview => "solution_overview"
  | .component_decomposition => "component_decomposition"
  | .hosting => "hosting"
  | .identity_access_management => "identity_access_management"
  | .network_configuration => "network_configuration"
  | .security_controls => "security_controls"
  | .data_management => "data_management"
  | .monitoring_observability => "monitoring_observability"
  | .disaster_recovery => "disaster_recovery"
  | .cost_estimation => "cost_estimation"
  | .deployment_strategy => "deployment_strategy"
  | .adrs => "adrs"

inductive ArtifactType where
  | resource_group_names
  | vnet_names
  | subnet_names
  | security_group_names
  | key_vault_names
  | storage_account_names
  | rbac_roles
  | service_principals
  | managed_identities
  | network_topology
  | security_controls_list
  | tagging_table
  | cost_breakdown
  | deployment_pipeline
  | monitoring_metrics
  | adr_decisions
deriving DecidableEq, Repr

inductive RAGDomain where
  | naming_resource_groups
  | naming_vnets
  | naming_subnets
  | naming_security_groups
  | naming_key_vaults
  | naming_storage
  | governance_tagging
  | governance_rbac
  | governance_security_baseline
  | architecture_network_segmentation
  | architecture_iam_model
  | architecture_reference_patterns
deriving DecidableEq, Repr

/-- The `.value` string of each `RAGDomain` enum member. -/
def RAGDomain.value : RAGDomain → String
  | .naming_resource_groups => "naming.resource_groups"
  | .naming_vnets => "naming.vnets"
  | .naming_subnets => "naming.subnets"
  | .naming_security_groups => "naming.security_groups"
  | .naming_key_vaults => "naming.key_vaults"
  | .naming_storage => "naming.storage"
  | .governance_tagging => "governance.tagging"
  | .governance_rbac => "governance.rbac"
  | .governance_security_baseline => "governance.security_baseline"
  | .architecture_network_segmentation => "architecture.network_segmentation"
  | .architecture_iam_model => "architecture.iam_model"
  | .architecture_reference_patterns => "architecture.reference_patterns"

structure SectionSchema where
  name : SectionName
  title : String
  description : String
  required_artifacts : List ArtifactType
  required_tables : List String
  required_rag_domains : List RAGDomain
  min_paragraphs : Nat
  max_length : Nat
  requires_mermaid : Bool := false
  subsections : List String := []
deriving DecidableEq

/-- `TAD_SECTION_SCHEMAS`: the dict keyed by every `SectionName`, as a total map. -/
def tadSectionSchemas : SectionName → SectionSchema
  | .executive_summary =>
    { name := .executive_summary
      title := "1. Executive Summary"
      description := "High-level overview of the solution, business context, and key architectural decisions"
      required_artifacts := []
      required_tables := []
      required_rag_domains := []
      min_paragraphs := 3
      max_length := 1500
      requires_mermaid := false }
  | .context =>
    { name := .context
      title := "2. Context and Background"
      description := "Business context, stakeholders, current state, and project objectives"
      required_artifacts := []
      required_tables := ["stakeholders"]
      required_rag_domains := []
      min_paragraphs := 2
      max_length := 2000
      requires_mermaid := false }
  | .functional_requirements =>
    { name := .functional_requirements
      title := "3. Functional Requirements"
      description := "Detailed functional requirements with priorities and acceptance criteria"
      required_artifacts := []
      required_tables := ["functional_requirements"]
      required_rag_domains := []
      min_paragraphs := 1
      max_length := 3000
      requires_mermaid := false }
  | .non_functional_requirements =>
    { name := .non_functional_requirements
      title := "4. Non-Functional Requirements"
      description := "Performance, scalability, availability, security, and compliance requirements"
      required_artifacts := []
      required_tables := ["non_functional_requirements"]
      required_rag_domains := [.governance_security_baseline]
      min_paragraphs := 1
      max_length := 3000
      requires_mermaid := false }
  | .constraints =>
    { name := .constraints
      title := "5. Constraints"
      description := "Technical, organizational, and regulatory constraints"
      required_artifacts := []
      required_tables := ["constraints"]
      required_rag_domains := []
      min_paragraphs := 1
      max_length := 1500
      requires_mermaid := false }
  | .assumptions =>
    { name := .assumptions
      title := "6. Assumptions"
      description := "Key assumptions made during architecture design"
      required_artifacts := []
      required_tables := []
      required_rag_domains := []
      min_paragraphs := 1
      max_length := 1000
      requires_mermaid := false }
  | .risks =>
    { name := .risks
      title := "7. Risks and Mitigations"
      description := "Identified risks with mitigation strategies"
      required_artifacts := []
      required_tables := ["risks"]
      required_rag_domains := []
      min_paragraphs := 1
      max_length := 2000
      requires_mermaid := false }
  | .solution_overview =>
    { name := .solution_overview
      title := "8. Solution Overview"
      description := "High-level architecture overview with system context diagram"
      required_artifacts := []
      required_tables := []
      required_rag_domains := [.architecture_reference_patterns]
      min_paragraphs := 3
      max_length := 2500
      requires_mermaid := true }
  | .component_decomposition =>
    { name := .component_decomposition
      title := "9. Component Decomposition"
      description := "Detailed component breakdown with Azure services, SKUs, and dependencies"
      required_artifacts := []
      required_tables := ["components"]
      required_rag_domains := []
      min_paragraphs := 2
      max_length := 4000
      requires_mermaid := true }
  | .hosting =>
    { name := .hosting
      title := "9.a. Hosting"
      description := "Resource Groups, Azure regions, tagging strategy, and resource organization"
      required_artifacts := [.resource_group_names, .tagging_table]
      required_tables := ["resource_groups", "tags"]
      required_rag_domains := [.naming_resource_groups, .governance_tagging]
      min_paragraphs := 2
      max_length := 3000
      requires_mermaid := false
      subsections := ["Resource Groups", "Tagging Strategy", "Regional Deployment"] }
  | .identity_access_management =>
    { name := .identity_access_management
      title := "9.h.i. Identity and Access Management"
      description := "Entra ID security groups, RBAC roles, service principals, and managed identities"
      required_artifacts := [.security_group_names, .rbac_roles, .service_principals, .managed_identities]
      required_tables := ["security_groups", "rbac_assignments", "service_principals"]
      required_rag_domains := [.naming_security_groups, .governance_rbac, .architecture_iam_model]
      min_paragraphs := 3
      max_length := 4000
      requires_mermaid := true
      subsections := ["Entra ID Security Groups", "RBAC Roles", "Service Principals", "Managed Identities"] }
  | .network_configuration =>
    { name := .network_configuration
      title := "9.i.ii. Network Configuration"
      description := "VNets, subnets, NSGs, private endpoints, and network topology"
      required_artifacts := [.vnet_names, .subnet_names, .network_topology]
      required_tables := ["vnets", "subnets", "nsgs"]
      required_rag_domains := [.naming_vnets, .naming_subnets, .architecture_network_segmentation]
      min_paragraphs := 3
      max_length := 4000
      requires_mermaid := true
      subsections := ["Network Topology", "VNets and Subnets", "Network Security Groups", "Private Endpoints"] }
  | .security_controls =>
    { name := .security_controls
      title := "10. Security Controls"
      description := "Security baseline, encryption, key management, and compliance controls"
      required_artifacts := [.key_vault_names, .security_controls_list]
      required_tables := ["security_controls", "encryption"]
      required_rag_domains := [.naming_key_vaults, .governance_security_baseline]
      min_paragraphs := 3
      max_length := 3500
      requires_mermaid := false }
  | .data_management =>
    { name := .data_management
      title := "11. Data Management"
      description := "Data storage, retention, backup, and data lifecycle management"
      required_artifacts := [.storage_account_names]
      required_tables := ["storage_accounts", "backup_policy"]
      required_rag_domains := [.naming_storage]
      min_paragraphs := 2
      max_length := 3000
      requires_mermaid := false }
  | .monitoring_observability =>
    { name := .monitoring_observability
      title := "12. Monitoring and Observability"
      description := "Monitoring strategy, metrics, alerts, and logging"
      required_artifacts := [.monitoring_metrics]
      required_tables := ["monitoring_metrics", "alerts"]
      required_rag_domains := []
      min_paragraphs := 2
      max_length := 2500
      requires_mermaid := false }
  | .disaster_recovery =>
    { name := .disaster_recovery
      title := "13. Disaster Recovery and Business Continuity"
      description := "DR strategy, RPO/RTO, backup procedures, and failover mechanisms"
      required_artifacts := []
      required_tables := ["dr_strategy"]
      required_rag_domains := []
      min_paragraphs := 2
      max_length := 2500
      requires_mermaid := true }
  | .cost_estimation =>
    { name := .cost_estimation
      title := "14. Cost Estimation"
      description := "Estimated monthly costs per environment with breakdown by service"
      required_artifacts := [.cost_breakdown]
      required_tables := ["cost_breakdown"]
      required_rag_domains := []
      min_paragraphs := 1
      max_length := 2000
      requires_mermaid := false }
  | .deployment_strategy =>
    { name := .deployment_strategy
      title := "15. Deployment Strategy"
      description := "CI/CD pipeline, IaC approach, deployment environments, and rollout plan"
      required_artifacts := [.deployment_pipeline]
      required_tables := ["deployment_environments"]
      required_rag_domains := []
      min_paragraphs := 2
      max_length := 2500
      requires_mermaid := true }
  | .adrs =>
    { name := .adrs
      title := "16. Architecture Decision Records (ADRs)"
      description := "Key architectural decisions with context, options, and rationale"
      required_artifacts := [.adr_decisions]
      required_tables := []
      required_rag_domains := []
      min_paragraphs := 1
      max_length := 5000
      requires_mermaid := false }

/-- The key set of the `TAD_SECTION_SCHEMAS` dict (used for `in` checks). -/
def tadSectionSchemaKeys : List SectionName :=
  [.executive_summary, .context, .functional_requirements, .non_functional_requirements,
   .constraints, .assumptions, .risks, .solution_overview, .component_decomposition,
   .hosting, .identity_access_management, .network_configuration, .security_controls,
   .data_management, .monitoring_observability, .disaster_recovery, .cost_estimation,
   .deployment_strategy, .adrs]

/-- `TAD_SECTION_ORDER`. -/
def tadSectionOrder : List SectionName :=
  [.executive_summary, .context, .functional_requirements, .non_functional_requirements,
   .constraints, .assumptions, .risks, .solution_overview, .component_decomposition,
   .hosting, .identity_access_management, .network_configuration, .security_controls,
   .data_management, .monitoring_observability, .disaster_recovery, .cost_estimation,
   .deployment_strategy, .adrs]

/-- `get_section_schema`. -/
def getSectionSchema (s : SectionName) : SectionSchema := tadSectionSchemas s

/-- `get_section_order`. -/
def getSectionOrder : List SectionName := tadSectionOrder

/-! ## Retrieval result shape (shared by retriever and reviewer) -/

structure RetrievedChunk where
  content : String
  score : ℚ
  title : String
deriving DecidableEq, Repr

/-- One `RetrievalDomainResult` dict; optional keys are present only on the
branch that sets them. -/
structure DomainResult where
  found : Bool
  query : String
  chunks : List RetrievedChunk
  top_score : Option ℚ := none
  source_files : Option (List String) := none
  error : Option String := none
deriving DecidableEq

/-- The nested `rag_data` dict as seen by the reviewer: outer key is the
domain-group string, inner key the subdomain string. -/
abbrev RagData := List (String × List (String × DomainResult))

/-- `rag_data.get(domain, {}).get(subdomain, {}).get("found")` truthiness. -/
def ragFound (ragData : RagData) (domain subdomain : String) : Bool :=
  match ragData.lookup domain with
  | none => false
  | some sub =>
    match sub.lookup subdomain with
    | none => false
    | some d => d.found

/-! ## Reviewer Agent (reviewer_agent.py) -/

structure ValidationIssue where
  category : String
  severity : String
  description : String
  location : String
deriving DecidableEq, Repr

/-- A validation-result dict; `validation_method`, `automated_score` and
`llm_score` keys exist only on the paths that set them. -/
structure SectionValidation where
  valid : Bool
  score : ℚ
  issues : List ValidationIssue
  recommendations : List String
  validation_method : Option String := none
  automated_score : Option ℚ := none
  llm_score : Option ℚ := none
deriving DecidableEq

def notNl (c : Char) : Bool := c != '\n'

/-- The `[-:\s|]` character class of `_has_markdown_table`. -/
def tableSepChar (c : Char) : Bool := c = '-' || c = ':' || pySpace c || c = '|'

def matchLit (ch : Char) (k : List Char → Bool) : List Char → Bool
  | [] => false
  | c :: cs => c = ch && k cs

/-- `p+` then continuation `k`, with full backtracking (existence semantics). -/
def matchPlus (p : Char → Bool) (k : List Char → Bool) : List Char → Bool
  | [] => false
  | c :: cs => p c && (k cs || matchPlus p k cs)

def anySuffix (p : List Char → Bool) : List Char → Bool
  | [] => p []
  | c :: cs => p (c :: cs) || anySuffix p cs

/-- `re.search(r'\|[^\n]+\|[^\n]+\n\|[-:\s|]+\|', content)` as a matcher. -/
def tableAt : List Char → Bool :=
  matchLit '|' (matchPlus notNl (matchLit '|' (matchPlus notNl (matchLit '\n'
    (matchLit '|' (matchPlus tableSepChar (matchLit '|' (fun _ => true))))))))

/-- `_has_markdown_table`. -/
def hasMarkdownTable (content : String) : Bool := anySuffix tableAt content.data

/-- Non-heading paragraph blocks: `content.split("\n\n")`, stripped, dropping
empties and `#`-headings. -/
def pyParagraphs (content : String) : List String :=
  ((pySplitOn content "\n\n").map pyStrip).filter (fun p => p != "" && !(listStarts ['#'] p.data))

def genericPhrases : List String :=
  ["will be established", "will be defined", "to be determined",
   "following best practices", "per standards"]

/-- `ReviewerAgentService._automated_validation`, checks 1-8 in source order. -/
def automatedValidation (content : String) (schema : SectionSchema) (ragData : RagData) :
    SectionValidation :=
  let check1 := content.length < 500
  let issues1 : List ValidationIssue :=
    if check1 then
      [{ category := "structural", severity := "critical",
         description := "Section too short (" ++ toString content.length ++
           " chars). Minimum expected: 500 chars.",
         location := "overall" }]
    else []
  let check2 := content.length > schema.max_length
  let issues2 : List ValidationIssue :=
    if check2 then
      [{ category := "structural", severity := "minor",
         description := "Section exceeds maximum length (" ++ toString content.length ++
           " > " ++ toString schema.max_length ++ " chars).",
         location := "overall" }]
    else []
  let paragraphs := pyParagraphs content
  let check3 := paragraphs.length < schema.min_paragraphs
  let issues3 : List ValidationIssue :=
    if check3 then
      [{ category := "structural", severity := "major",
         description := "Insufficient paragraphs (" ++ toString paragraphs.length ++
           " found, " ++ toString schema.min_paragraphs ++ " required).",
         location := "overall" }]
    else []
  let check4 := !schema.required_tables.isEmpty && !hasMarkdownTable content
  let issues4 : List ValidationIssue :=
    if check4 then
      [{ category := "structural", severity := "critical",
         description := "Required table \x27" ++ schema.required_tables.headD "" ++
           "\x27 not found.",
         location := "tables" }]
    else []
  let check5 := schema.requires_mermaid && !(strContains (pyLower content) "```mermaid")
  let issues5 : List ValidationIssue :=
    if check5 then
      [{ category := "structural", severity := "major",
         description := "Required Mermaid diagram not found.",
         location := "diagrams" }]
    else []
  let noNotFoundStmt := !(strContains (pyLower content) "not found in ai search index")
  let issues6 : List ValidationIssue :=
    schema.required_rag_domains.filterMap (fun rd =>
      match pySplitOn rd.value "." with
      | [domain, subdomain] =>
        if !(ragFound ragData domain subdomain) && noNotFoundStmt then
          some { category := "rag", severity := "critical",
                 description := "RAG domain \x27" ++ rd.value ++
                   "\x27 not found, but section doesn\x27t state this explicitly.",
                 location := "rag_compliance" }
        else none
      | _ => none)
  let phraseHits := genericPhrases.filter (fun p => strContains (pyLower content) p)
  let recommendations := phraseHits.map (fun p =>
    "Generic phrase detected: \x27" ++ p ++ "\x27. Consider providing concrete details.")
  let check8 := !schema.required_rag_domains.isEmpty &&
    !(strContains (pyLower content) "[source:") && !(strContains (pyLower content) "source:")
  let issues8 : List ValidationIssue :=
    if check8 then
      [{ category := "rag", severity := "major",
         description := "No source citations found for RAG-based content.",
         location := "citations" }]
    else []
  let score : ℚ := 1
    - (if check1 then 3/10 else 0)
    - (if check2 then 1/10 else 0)
    - (if check3 then 2/10 else 0)
    - (if check4 then 2/10 else 0)
    - (if check5 then 3/20 else 0)
    - (issues6.length : ℚ) * (1/4)
    - (phraseHits.length : ℚ) * (1/20)
    - (if check8 then 3/20 else 0)
  let score := pyMaxQ 0 (pyMinQ 1 score)
  let issues := issues1 ++ issues2 ++ issues3 ++ issues4 ++ issues5 ++ issues6 ++ issues8
  let criticalIssues := issues.filter (fun i => i.severity == "critical")
  let valid := criticalIssues.isEmpty && decide ((6/10 : ℚ) ≤ score)
  { valid := valid, score := score, issues := issues, recommendations := recommendations }

/-! LLM validation-response parsing (`_parse_llm_validation_response`). -/

def digitDot (c : Char) : Bool := c.isDigit || c = '.'

/-- Try `SCORE:\s*([0-9.]+)` (case-insensitive) anchored at this position. -/
def tryScoreAt (l : List Char) : Option (List Char) :=
  if ciStarts "score:".data l then
    let rest := (l.drop 6).dropWhile pySpace
    let tok := rest.takeWhile digitDot
    if tok.isEmpty then none else some tok
  else none

/-- `re.search` scan for the score pattern. -/
def scanScoreTok : List Char → Option (List Char)
  | [] => none
  | c :: cs =>
    match tryScoreAt (c :: cs) with
    | some t => some t
    | none => scanScoreTok cs

def natOfDigits (l : List Char) : Nat :=
  l.foldl (fun n c => n * 10 + (c.toNat - '0'.toNat)) 0

/-- Python `float()` on a `[0-9.]+` token: `none` models `ValueError`. -/
def pyFloatTok (tok : List Char) : Option ℚ :=
  match pySplitOn (String.mk tok) "." with
  | [intPart] => some ((natOfDigits intPart.data : ℚ))
  | [intPart, fracPart] =>
    if intPart.isEmpty && fracPart.isEmpty then none
    else some ((natOfDigits intPart.data : ℚ) +
      (natOfDigits fracPart.data : ℚ) / (10 ^ fracPart.length : ℚ))
  | _ => none

/-- Suffix after the first case-insensitive occurrence of `pat` (lowercase). -/
def ciFindSplit (pat : List Char) : List Char → Option (List Char)
  | [] => if pat.isEmpty then some [] else none
  | c :: cs =>
    if ciStarts pat (c :: cs) then some ((c :: cs).drop pat.length)
    else ciFindSplit pat cs

/-- Prefix before the first case-insensitive occurrence of `pat` (whole list if absent). -/
def ciTakeUntil (pat : List Char) : List Char → List Char
  | [] => []
  | c :: cs => if ciStarts pat (c :: cs) then [] else c :: ciTakeUntil pat cs

def wordChar (c : Char) : Bool := c.isAlphanum || c = '_'

/-- Does `rest` form exactly one parenthesized chunk `\((.+?)\)$`? -/
def parenChunk (rest : List Char) : Bool :=
  rest.head? == some '(' && rest.getLast? == some ')' && decide (3 ≤ rest.length)

/-- Lazy split of the issue-line body into `(.+?)` and the optional trailing
`\((.+?)\)`: grow the description one char at a time. -/
def descSplitAux : List Char → List Char → List Char × Option (List Char)
  | acc, [] => (acc.reverse, none)
  | acc, r :: rs =>
    if parenChunk (r :: rs) then (acc.reverse, some ((r :: rs).drop 1 |>.dropLast))
    else descSplitAux (r :: acc) rs

/-- `re.match(r'-\s*\[(\w+)\]\s*(.+?)(?:\((.+?)\))?$', line)`:
returns (severity, description, optional location). -/
def parseIssueLine (l : List Char) : Option (String × String × Option String) :=
  match l with
  | '-' :: rest =>
    let rest := rest.dropWhile pySpace
    match rest with
    | '[' :: r2 =>
      let sev := r2.takeWhile wordChar
      if sev.isEmpty then none
      else
        match r2.drop sev.length with
        | ']' :: r3 =>
          let spaces := r3.takeWhile pySpace
          let body := r3.drop spaces.length
          match body with
          | [] => if spaces.isEmpty then none else some (String.mk sev, " ", none)
          | b :: bs =>
            let (desc, loc) := descSplitAux [b] bs
            some (String.mk sev, String.mk desc, loc.map String.mk)
        | _ => none
    | _ => none
  | _ => none

def parseIssues (text : String) : List ValidationIssue :=
  match ciFindSplit "issues:".data text.data with
  | none => []
  | some suf =>
    let seg := ciTakeUntil "recommendations:".data suf
    ((pySplitOn (pyStrip (String.mk seg)) "\n").map pyStrip).filterMap (fun line =>
      if listStarts ['-'] line.data then
        (parseIssueLine line.data).map (fun (sev, desc, loc) =>
          { category := "content", severity := pyLower sev,
            description := pyStrip desc,
            location := match loc with | some t => pyStrip t | none => "general" })
      else none)

def parseRecommendations (text : String) : List String :=
  match ciFindSplit "recommendations:".data text.data with
  | none => []
  | some suf =>
    ((pySplitOn (pyStrip (String.mk suf)) "\n").map pyStrip).filterMap (fun line =>
      if listStarts ['-'] line.data then some (pyStrip (String.mk (line.data.drop 1)))
      else none)

/-- `_parse_llm_validation_response`; a `float()` failure hits the surrounding
`except` and degrades to the neutral pass. -/
def parseLlmValidationResponse (text : String) : SectionValidation :=
  let valid := strContains (pyUpper text) "PASS"
  match scanScoreTok text.data with
  | some tok =>
    match pyFloatTok tok with
    | none => { valid := true, score := 7/10, issues := [], recommendations := [] }
    | some q =>
      { valid := valid, score := q, issues := parseIssues text,
        recommendations := parseRecommendations text }
  | none =>
    { valid := valid, score := 7/10, issues := parseIssues text,
      recommendations := parseRecommendations text }

/-- `_llm_validation`: the generation call is a parameter; a collaborator fault
returns the neutral validation. -/
def llmValidation (llmResp : Except Unit String) : SectionValidation :=
  match llmResp with
  | .error _ =>
    { valid := true, score := 7/10, issues := [],
      recommendations := ["LLM validation could not be completed."] }
  | .ok text => parseLlmValidationResponse text

/-- `_combine_validations`. -/
def combineValidations (automated llm : SectionValidation) : SectionValidation :=
  let allIssues := automated.issues ++ llm.issues
  let allRecommendations := automated.recommendations ++ llm.recommendations
  let combinedScore := automated.score * (6/10) + llm.score * (4/10)
  let criticalIssues := allIssues.filter (fun i => i.severity == "critical")
  let valid := criticalIssues.isEmpty && decide ((6/10 : ℚ) ≤ combinedScore)
  { valid := valid, score := combinedScore, issues := allIssues,
    recommendations := allRecommendations, validation_method := some "combined",
    automated_score := some automated.score, llm_score := some llm.score }

/-- `ReviewerAgentService.validate_section`: automated phase, early return on
critical automated issues, else LLM phase and combination. -/
def validateSection (content : String) (schema : SectionSchema) (ragData : RagData)
    (llmResp : Except Unit String) : SectionValidation :=
  let automated := automatedValidation content schema ragData
  let criticalAutomated := automated.issues.filter (fun i => i.severity == "critical")
  if !criticalAutomated.isEmpty then
    { valid := false, score := automated.score, issues := automated.issues,
      recommendations := automated.recommendations, validation_method := some "automated" }
  else
    combineValidations automated (llmValidation llmResp)

/-! ## Structured RAG Retriever (structured_rag_retriever.py) -/

def namingQueries : List (String × String) :=
  [("resource_groups", "resource group naming convention private paas RG pattern GCCC"),
   ("vnets", "virtual network vnet naming convention pattern azure"),
   ("subnets", "subnet naming convention pattern network"),
   ("security_groups", "entra id security group naming convention pattern azure ad"),
   ("key_vaults", "key vault naming convention pattern secrets"),
   ("storage", "storage account naming convention pattern blob")]

def governanceQueries : List (String × String) :=
  [("tagging", "azure tagging policy standard mandatory tags governance"),
   ("rbac", "role based access control rbac model azure permissions"),
   ("security_baseline", "security baseline standards controls compliance azure")]

def architectureQueries : List (String × String) :=
  [("network_segmentation", "network segmentation hub spoke topology vnet peering"),
   ("iam_model", "identity access management model entra id azure ad authentication"),
   ("reference_patterns", "reference architecture pattern best practices azure")]

/-- `_infer_project_type`: keyword lookup over name + description. -/
def inferProjectType (ctx : NormalizedContext) : String :=
  let combined := pyLower ctx.project.full_name ++ " " ++ pyLower ctx.project.description
  if ["iot", "internet of things", "sensor", "device"].any (fun k => strContains combined k) then
    "iot platform"
  else if ["data", "analytics", "bi", "warehouse", "lake"].any (fun k => strContains combined k) then
    "data analytics"
  else if ["web", "portal", "website", "frontend"].any (fun k => strContains combined k) then
    "web application"
  else if ["api", "microservice", "service"].any (fun k => strContains combined k) then
    "microservices"
  else if ["mobile", "app"].any (fun k => strContains combined k) then
    "mobile application"
  else if ["ai", "ml", "machine learning", "artificial intelligence"].any (fun k => strContains combined k) then
    "ai ml platform"
  else "cloud application"

/-- The embedding collaborator: `text → vector` or an exception message. -/
abbrev EmbedFn := String → Except String (List ℚ)

/-- The hybrid-search collaborator: `(queryText, queryVector) → chunks` or an
exception message (`top_k=5` is fixed at the call sites). -/
abbrev SearchFn := String → List ℚ → Except String (List RetrievedChunk)

/-- One iteration of the per-domain retrieval loops: embed, search, build the
found / not-found / error `RetrievalDomainResult`.  The `set()` used for
`source_files` has unspecified order in Python; modelled with `dedup`. -/
def retrieveEntry (embed : EmbedFn) (search : SearchFn) (query : String)
    (notFoundMsg : String) : DomainResult :=
  match (embed query).bind (fun v => search query v) with
  | .ok results =>
    if !results.isEmpty then
      { found := true, query := query, chunks := results,
        top_score := some (results.headD { content := "", score := 0, title := "" }).score,
        source_files := some ((results.map (fun r => r.title)).dedup) }
    else
      { found := false, query := query, chunks := [], error := some notFoundMsg }
  | .error e => { found := false, query := query, chunks := [], error := some e }

/-- `_retrieve_naming_conventions`. -/
def retrieveNamingConventions (embed : EmbedFn) (search : SearchFn) :
    List (String × DomainResult) :=
  namingQueries.map (fun rq =>
    (rq.fst, retrieveEntry embed search rq.snd
      (rq.fst ++ " naming convention not found in AI Search index")))

/-- `_retrieve_governance`. -/
def retrieveGovernance (embed : EmbedFn) (search : SearchFn) :
    List (String × DomainResult) :=
  governanceQueries.map (fun rq =>
    (rq.fst, retrieveEntry embed search rq.snd
      (rq.fst ++ " governance standard not found in AI Search index")))

/-- `_retrieve_architecture` (the `reference_patterns` template contains no
`{project_type}` placeholder, so the substitution is a no-op). -/
def retrieveArchitecture (embed : EmbedFn) (search : SearchFn)
    (ctx : NormalizedContext) : List (String × DomainResult) :=
  architectureQueries.map (fun rq =>
    let query :=
      if rq.fst == "reference_patterns" then
        pyReplace rq.snd "{project_type}" (inferProjectType ctx)
      else rq.snd
    (rq.fst, retrieveEntry embed search query
      (rq.fst ++ " architecture pattern not found in AI Search index")))

/-- `retrieve_all`, restricted to the three data domains (the metadata counter
sub-dict is derived below). -/
def retrieveAll (embed : EmbedFn) (search : SearchFn) (ctx : NormalizedContext) : RagData :=
  [("naming_conventions", retrieveNamingConventions embed search),
   ("governance", retrieveGovernance embed search),
   ("architecture", retrieveArchitecture embed search ctx)]

structure RagSummary where
  found : List String
  missing : List String
  coverage_score : ℚ
deriving DecidableEq

/-- All `(domain, subdomain, data)` triples in `get_rag_summary`'s iteration order. -/
def ragSummaryEntries (ragData : RagData) : List (String × String × DomainResult) :=
  ((["naming_conventions", "governance", "architecture"].map (fun domain =>
    match ragData.lookup domain with
    | none => []
    | some sub => sub.map (fun kv => (domain, kv.fst, kv.snd)))) : List _).flatten

/-- `get_rag_summary`. -/
def getRagSummary (ragData : RagData) : RagSummary :=
  let entries := ragSummaryEntries ragData
  let foundList := entries.filterMap (fun e =>
    if e.2.2.found then some (e.1 ++ "." ++ e.2.1) else none)
  let missingList := entries.filterMap (fun e =>
    if e.2.2.found then none else some (e.1 ++ "." ++ e.2.1))
  let total := entries.length
  let found := foundList.length
  { found := foundList, missing := missingList,
    coverage_score := if 0 < total then (found : ℚ) / (total : ℚ) else 0 }

/-! ## TAD Orchestrator (tad_orchestrator.py) -/

structure Feedback where
  issues : List ValidationIssue
  recommendations : List String
deriving DecidableEq, Repr

structure SectionResult where
  content : String
  validation : SectionValidation
  attempts : Nat
deriving DecidableEq

/-- `self.max_retries`. -/
def maxRetries : Nat := 2

/-- `_generate_error_section`. -/
def generateErrorSection (sectionName : SectionName) (validationResult : SectionValidation) :
    String :=
  let schema := getSectionSchema sectionName
  String.intercalate "\n"
    (["### " ++ schema.title,
      "\n**⚠️ Section Generation Failed**\n",
      "This section could not be generated successfully after " ++
        toString (maxRetries + 1) ++ " attempts.\n",
      "**Issues Detected:**\n"]
     ++ (validationResult.issues.take 5).map (fun i =>
          "- [" ++ pyUpper i.severity ++ "] " ++ i.description)
     ++ ["\n**Action Required:**",
         "1. Review the requirements and ensure all necessary information is provided",
         "2. Verify that required standards are available in the knowledge base",
         "3. Regenerate this section after addressing the issues"])

/-- The writer collaborator for one section, as the orchestrator sees it:
attempt number and optional feedback in, generated text or an exception out
(the context / RAG / naming arguments are fixed for the run and closed over). -/
abbrev WriterFn := Nat → Option Feedback → Except String String

/-- The reviewer collaborator for one section: content in, validation or an
exception out. -/
abbrev ReviewFn := String → Except String SectionValidation

/-- The `for attempt in range(max_retries + 1)` loop of
`_generate_section_with_validation`.  `attempt` is the Python loop index,
`remaining` the number of iterations left, `feedback` the carried feedback,
`lastV` the last successfully bound `validation_result` (the loop body only
re-binds it when the reviewer call returns).  An exception on the last attempt
re-raises; the fall-through after the loop returns the synthetic error section
(an unbound `validation_result` there would be a `NameError`, modelled as an
error — provably unreachable). -/
def genSectionLoop (sectionName : SectionName) (writer : WriterFn) (review : ReviewFn) :
    Nat → Nat → Option Feedback → Option SectionValidation → Except String SectionResult
  | _, 0, _, lastV =>
    match lastV with
    | some v =>
      .ok { content := generateErrorSection sectionName v, validation := v,
            attempts := maxRetries + 1 }
    | none => .error "NameError: validation_result"
  | attempt, remaining + 1, feedback, lastV =>
    match writer attempt feedback with
    | .error e =>
      if attempt == maxRetries then .error e
      else genSectionLoop sectionName writer review (attempt + 1) remaining feedback lastV
    | .ok sectionContent =>
      match review sectionContent with
      | .error e =>
        if attempt == maxRetries then .error e
        else genSectionLoop sectionName writer review (attempt + 1) remaining feedback lastV
      | .ok validationResult =>
        if validationResult.valid then
          .ok { content := sectionContent, validation := validationResult,
                attempts := attempt + 1 }
        else
          let criticalIssues := validationResult.issues.filter
            (fun i => i.severity == "critical")
          if criticalIssues.isEmpty && decide (0 < attempt) then
            .ok { content := sectionContent, validation := validationResult,
                  attempts := attempt + 1 }
          else
            genSectionLoop sectionName writer review (attempt + 1) remaining
              (some { issues := criticalIssues,
                      recommendations := validationResult.recommendations })
              (some validationResult)

/-- `_generate_section_with_validation`. -/
def generateSectionWithValidation (sectionName : SectionName) (writer : WriterFn)
    (review : ReviewFn) : Except String SectionResult :=
  genSectionLoop sectionName writer review 0 (maxRetries + 1) none none

/-- Python dict assignment `d[k] = v` on an insertion-ordered dict. -/
def dictInsert {α : Type} (d : List (String × α)) (k : String) (v : α) :
    List (String × α) :=
  if (d.lookup k).isSome then d.map (fun kv => if kv.fst == k then (k, v) else kv)
  else d ++ [(k, v)]

/-- The per-run priority list (`hosting`, IAM, `network_configuration`). -/
def prioritySections : List SectionName :=
  [.hosting, .identity_access_management, .network_configuration]

/-- The order in which Stage 3 generates sections: the three priority sections
first, then the remaining registry order, each filtered by membership in the
schema dict. -/
def stage3Order : List SectionName :=
  (prioritySections.filter (fun s => tadSectionSchemaKeys.contains s)) ++
  ((getSectionOrder.filter (fun s => !prioritySections.contains s)).filter
    (fun s => tadSectionSchemaKeys.contains s))

/-! Assembly (`_assemble_tad`, `_generate_validation_report_section`). -/

/-- Nearest integer, ties to even (the rounding used by `format`). -/
def roundHalfEven (q : ℚ) : ℤ :=
  let f := ⌊q⌋
  let frac := q - f
  if frac < 1 / 2 then f
  else if 1 / 2 < frac then f + 1
  else if f % 2 = 0 then f else f + 1

def padLeftZeros (n : Nat) (s : String) : String :=
  if s.length < n then String.mk (List.replicate (n - s.length) '0') ++ s else s

/-- Python `f"{q:.nd f}"` on an exact rational. -/
def fmtFixed (nd : Nat) (q : ℚ) : String :=
  let scaled := roundHalfEven (q * ((10 : ℚ) ^ nd))
  let sign := if scaled < 0 then "-" else ""
  let a := scaled.natAbs
  if nd = 0 then sign ++ toString a
  else sign ++ toString (a / 10 ^ nd) ++ "." ++ padLeftZeros nd (toString (a % 10 ^ nd))

/-- Python `f"{q:.1%}"`. -/
def fmtPercent1 (q : ℚ) : String := fmtFixed 1 (q * 100) ++ "%"

/-- Python `str.title()` (ASCII). -/
def pyTitleAux : Bool → List Char → List Char
  | _, [] => []
  | prevAlpha, c :: cs =>
    if c.isAlpha then (if prevAlpha then c.toLower else c.toUpper) :: pyTitleAux true cs
    else c :: pyTitleAux false cs

def pyTitle (s : String) : String := String.mk (pyTitleAux false s.data)

/-- `_generate_validation_report_section`. -/
def generateValidationReportSection (validationReport : List (String × SectionValidation))
    (ragSummary : RagSummary) : String :=
  let reportParts : List String :=
    ["## Document Validation Report",
     "\nThis section provides transparency on the TAD generation process and validation results.\n",
     "### RAG Knowledge Base Coverage",
     "\n**Coverage Score:** " ++ fmtPercent1 ragSummary.coverage_score ++ "\n"]
    ++ (if !ragSummary.found.isEmpty then
          ["**Standards Retrieved from Knowledge Base:**"]
          ++ ragSummary.found.map (fun domain => "- ✅ " ++ domain)
        else [])
    ++ (if !ragSummary.missing.isEmpty then
          ["\n**Standards Not Found in Knowledge Base:**"]
          ++ ragSummary.missing.map (fun domain => "- ❌ " ++ domain)
          ++ ["\n**Action Required:** Upload missing standard documents to Azure Blob Storage (knowledge-base container) and re-run indexer."]
        else [])
    ++ ["\n### Section Quality Scores",
        "\n| Section | Valid | Score | Issues |",
        "|---------|-------|-------|--------|"]
    ++ validationReport.map (fun kv =>
        let validIcon := if kv.snd.valid then "✅" else "❌"
        "| " ++ pyTitle (pyReplace kv.fst "_" " ") ++ " | " ++ validIcon ++ " | " ++
          fmtFixed 2 kv.snd.score ++ " | " ++ toString kv.snd.issues.length ++ " |")
    ++ (let allCriticalIssues := (validationReport.map (fun kv =>
          (kv.snd.issues.filter (fun i => i.severity == "critical")).map
            (fun i => kv.fst ++ ": " ++ i.description))).flatten
        if !allCriticalIssues.isEmpty then
          ["\n### Critical Issues Detected"]
          ++ allCriticalIssues.map (fun issue => "- ⚠️ " ++ issue)
        else [])
    ++ ["\n### Recommendations",
        "1. Review sections with scores below 0.8 for potential improvements",
        "2. Upload missing standard documents to improve RAG coverage",
        "3. Validate all generated names against organizational standards",
        "4. Have architecture review board approve before implementation"]
  String.intercalate "\n" reportParts

/-- The parts list built by `_assemble_tad`; `generatedStamp` models the
`datetime.utcnow().strftime(...)` read. -/
def assembleTadParts (sections : List (String × String))
    (validationReport : List (String × SectionValidation))
    (normalizedContext : NormalizedContext) (ragSummary : RagSummary)
    (generatedStamp : String) : List String :=
  let projectName := normalizedContext.project.full_name
  ["# Technical Architecture Document",
   "## " ++ projectName,
   "\n**Document Version:** 1.0",
   "**Generated:** " ++ generatedStamp,
   "**Status:** Draft for Review",
   "\n---\n"]
  ++ (getSectionOrder.foldl (fun acc sectionName =>
        match sections.lookup sectionName.value with
        | some content => acc ++ [content, "\n---\n"]
        | none => acc) [])
  ++ [generateValidationReportSection validationReport ragSummary]

/-- `_assemble_tad`. -/
def assembleTad (sections : List (String × String))
    (validationReport : List (String × SectionValidation))
    (normalizedContext : NormalizedContext) (ragSummary : RagSummary)
    (generatedStamp : String) : String :=
  String.intercalate "\n"
    (assembleTadParts sections validationReport normalizedContext ragSummary generatedStamp)

inductive RunMeta where
  | completed (generation_time : ℚ) (total_sections : Nat) (valid_sections : Nat)
      (average_score : ℚ) (generated_at : String)
  | incomplete (status : String) (completeness_score : ℚ)
deriving DecidableEq

/-- The dict returned by `generate_tad` (`rag_coverage` is the empty dict on
the incomplete path, modelled as `none`). -/
structure TadRunResult where
  tad_markdown : String
  validation_report : List (String × SectionValidation)
  rag_coverage : Option RagSummary
  metadata : RunMeta
deriving DecidableEq

/-- `_handle_incomplete_requirements`. -/
def handleIncompleteRequirements (normalizedContext : NormalizedContext) : TadRunResult :=
  let completeness := normalizedContext.completeness
  let errorMessage :=
    "# Requirements Incomplete\n\n" ++
    "The provided requirements are incomplete and cannot be used to generate a TAD.\n\n" ++
    "**Completeness Score:** " ++ fmtPercent1 completeness.score ++ "\n\n" ++
    "**Missing Required Fields:**\n" ++
    String.intercalate "\n" (completeness.missing_fields.map (fun field => "- " ++ field)) ++
    "\n\n**Action Required:**\n" ++
    "Please provide the missing information and regenerate the TAD.\n"
  { tad_markdown := errorMessage, validation_report := [], rag_coverage := none,
    metadata := .incomplete "incomplete_requirements" completeness.score }

/-- The Stage 3 & 4 loop of `generate_tad`: run every section's
writer-reviewer loop in `stage3Order`, accumulating the `sections` and
`validation_report` dicts; an uncaught per-section exception aborts the fold
(and, through the re-raising top-level handler, the whole run). -/
def runAllSections (writer : SectionName → WriterFn) (review : SectionName → ReviewFn) :
    Except String (List (String × String) × List (String × SectionValidation)) :=
  stage3Order.foldlM (fun acc sectionName => do
    let r ← generateSectionWithValidation sectionName (writer sectionName) (review sectionName)
    pure (dictInsert acc.1 sectionName.value r.content,
          dictInsert acc.2 sectionName.value r.validation)) ([], [])

/-- `generate_tad`: normalize, completeness short-circuit, RAG retrieval
(collaborator outcome passed in), section loop, assembly.  `now` is the
normalization timestamp, `generatedStamp` the assembly timestamp, `duration`
and `generatedAt` the run metadata wall-clock reads.  The top-level
`except ... raise` re-raises, so any `Except.error` passes through unchanged. -/
def generateTad (raw : RawRequirements) (now : String)
    (ragRetrieve : NormalizedContext → Except String RagData)
    (writer : SectionName → WriterFn) (review : SectionName → ReviewFn)
    (generatedStamp : String) (duration : ℚ) (generatedAt : String) :
    Except String TadRunResult := do
  let normalizedContext := normalizeContext raw now
  if !normalizedContext.completeness.is_complete then
    return handleIncompleteRequirements normalizedContext
  let ragData ← ragRetrieve normalizedContext
  let ragSummary := getRagSummary ragData
  let (sections, validationReport) ← runAllSections writer review
  let tadMarkdown := assembleTad sections validationReport normalizedContext ragSummary generatedStamp
  let validCount := (validationReport.filter (fun kv => kv.snd.valid)).length
  let avgScore : ℚ := (validationReport.map (fun kv => kv.snd.score)).sum /
    (validationReport.length : ℚ)
  return { tad_markdown := tadMarkdown, validation_report := validationReport,
           rag_coverage := some ragSummary,
           metadata := .completed duration sections.length validCount avgScore generatedAt }

/-! ## Concrete fixtures used by witnesses and counterexamples -/

/-- A 170-character paragraph. -/
def paraA : String := String.mk (List.replicate 170 'a')

/-- 514-character content with three non-heading paragraphs: passes every
automated check of the executive-summary schema. -/
def contentOkC4 : String := paraA ++ "\n\n" ++ paraA ++ "\n\n" ++ paraA

/-- A reviewer-model reply reporting a score above 1. -/
def llmTextC4 : String := "VALIDATION RESULT: PASS\nSCORE: 2.0"

/-- A reviewer-model reply reporting the in-range score 0.5. -/
def llmTextC5 : String := "VALIDATION RESULT: PASS\nSCORE: 0.5"

/-- An embedding collaborator that always succeeds. -/
def embedNone : EmbedFn := fun _ => .ok []

/-- A retrieval collaborator that always returns the empty result list. -/
def searchNone : SearchFn := fun _ _ => .ok []

/-- A critical validation issue used by orchestrator-loop witnesses. -/
def critIssueW : ValidationIssue :=
  { category := "structural", severity := "critical",
    description := "too short", location := "overall" }

/-- An always-failing validation (one critical issue). -/
def vBadW : SectionValidation :=
  { valid := false, score := 0, issues := [critIssueW], recommendations := ["expand"] }

/-- A clean passing validation. -/
def vGoodW : SectionValidation :=
  { valid := true, score := 1, issues := [], recommendations := [] }

/-- A writer whose output never changes. -/
def writerBadW : WriterFn := fun _ _ => .ok "x"

/-- A reviewer that always reports the critical issue. -/
def reviewBadW : ReviewFn := fun _ => .ok vBadW

/-- A writer producing "draft0" on attempt 1 and "draft1" afterwards. -/
def writerRetryW : WriterFn := fun attempt _ => if attempt = 0 then .ok "draft0" else .ok "draft1"

/-- A reviewer failing "draft0" with one critical issue and passing anything else. -/
def reviewRetryW : ReviewFn := fun c => if c = "draft0" then .ok vBadW else .ok vGoodW

/-- A complete raw input (free-text analysis only). -/
def rawComplete : RawRequirements := { analysis := some "stuff" }

/-- A per-section writer family failing only for the hosting section. -/
def writerOneBoom : SectionName → WriterFn := fun s _ _ =>
  if s = .hosting then .error "boom" else .ok "content"

/-- A reviewer family accepting everything. -/
def reviewGoodFam : SectionName → ReviewFn := fun _ _ => .ok vGoodW

/-- A reviewer accepting everything. -/
def reviewGoodW : ReviewFn := fun _ => .ok vGoodW

/-- A writer failing transiently on attempts 1 and 2 and succeeding on the last. -/
def writerFlaky : WriterFn := fun attempt _ =>
  if attempt < 2 then .error "transient" else .ok "content"

/-! ## Claim theorems -/


theorem ite_default_ne_empty (s : String) : (if s = "" then "Project" else s) ≠ "" := by
  split
  · decide
  · assumption

/-- The defaulted raw project name is never empty. -/
theorem projectNameRaw_ne_empty (raw : RawRequirements) : projectNameRaw raw ≠ "" :=
  ite_default_ne_empty _

theorem validateCompleteness_missing_fields (raw : RawRequirements) (p : ProjectInfo)
    (i : Infrastructure) : (validateCompleteness raw p i).missing_fields =
    if (optTruthyStr raw.analysis || optTruthySL raw.functional_requirements ||
        optTruthySL raw.non_functional_requirements) then ([] : List String)
    else
      (if p.full_name = "" then ["project_name"] else []) ++
      (if p.description = "" then ["description"] else []) ++
      (if i.primary_region = "" then ["cloud_region"] else []) := rfl

/-- C7: the spec (and `_extract_acronym`'s own docstring) state that
"Customer Portal" maps to "CP", but the code removes "portal" as a stopword and
then truncates the single remaining word, returning "CUST".  The other two
reference examples do hold: "IoT Platform" gives "IOT" and the no-space token
"DataAnalyticsPlatform" gives its first 4 uppercase letters "DATA".  This
theorem evaluates the code at the failing input. -/
theorem extractAcronym_customer_portal_divergence :
    extractAcronym "Customer Portal" = "CUST" ∧ extractAcronym "Customer Portal" ≠ "CP" ∧
    extractAcronym "IoT Platform" = "IOT" ∧
    extractAcronym "DataAnalyticsPlatform" = "DATA" := by
  refine ⟨by decide, by decide, by decide, by decide⟩

/-- C10: `"project_name"` never appears in `missing_fields` (the full name is
defaulted to `"Project"` before the missing-field check), and normalizing the
empty input yields `missing_fields = ["description"]` exactly. -/
theorem missing_fields_never_project_name :
    (∀ (raw : RawRequirements) (now : String),
      "project_name" ∉ (normalizeContext raw now).completeness.missing_fields) ∧
    (normalizeContext {} "2024-01-01T00:00:00").completeness.missing_fields =
      ["description"] := by
  constructor
  · intro raw now
    have hfn : (normalizeProjectInfo raw).full_name ≠ "" := projectNameRaw_ne_empty raw
    show "project_name" ∉
      (validateCompleteness raw (normalizeProjectInfo raw) (normalizeInfrastructure raw)).missing_fields
    rw [validateCompleteness_missing_fields, if_neg hfn]
    split
    · simp
    · intro hmem
      rw [List.nil_append] at hmem
      rcases List.mem_append.mp hmem with h | h
      · revert h
        split
        · decide
        · decide
      · revert h
        split
        · decide
        · decide
  · decide

/-- C6 (counterexample): two normalizer calls on the identical empty input at
different wall-clock instants yield unequal results — the
`metadata.normalized_at` timestamp differs — refuting "two calls to normalize
with identical input produce identical normalized-context results (all fields
equal)". -/
theorem normalizeContext_not_call_deterministic :
    normalizeContext {} "2024-01-01T00:00:00" ≠ normalizeContext {} "2024-01-01T00:00:01" := by
  intro h
  have h2 : (normalizeContext {} "2024-01-01T00:00:00").metadata.normalized_at =
      (normalizeContext {} "2024-01-01T00:00:01").metadata.normalized_at := by rw [h]
  have h3 : ("2024-01-01T00:00:00" : String) = "2024-01-01T00:00:01" := h2
  exact absurd h3 (by decide)

/-- C6 (amended): normalization is deterministic given identical input in every
field except the `metadata.normalized_at` wall-clock stamp, which simply
records the clock reading of that call; the embedding is a pure function of
the input and the clock, performing no network or generation calls. -/
theorem normalizeContext_deterministic_modulo_timestamp (raw : RawRequirements)
    (t1 t2 : String) :
    (normalizeContext raw t1).project = (normalizeContext raw t2).project ∧
    (normalizeContext raw t1).infrastructure = (normalizeContext raw t2).infrastructure ∧
    (normalizeContext raw t1).requirements = (normalizeContext raw t2).requirements ∧
    (normalizeContext raw t1).stakeholders = (normalizeContext raw t2).stakeholders ∧
    (normalizeContext raw t1).completeness = (normalizeContext raw t2).completeness ∧
    (normalizeContext raw t1).metadata.source = (normalizeContext raw t2).metadata.source ∧
    (normalizeContext raw t1).metadata.normalized_at = t1 :=
  ⟨rfl, rfl, rfl, rfl, rfl, rfl, rfl⟩

/-! Reviewer lemmas shared by the score and two-phase claims. -/

theorem pyMaxQ_zero_nonneg (x : ℚ) : 0 ≤ pyMaxQ 0 x := by
  unfold pyMaxQ
  split
  · exact le_refl 0
  · linarith [lt_of_not_le (by assumption : ¬ x ≤ 0)]

theorem pyMaxQ_zero_pyMinQ_one_le_one (x : ℚ) : pyMaxQ 0 (pyMinQ 1 x) ≤ 1 := by
  unfold pyMaxQ pyMinQ
  split <;> split <;> first
    | exact zero_le_one
    | exact le_refl 1
    | exact le_of_not_le (by assumption)

theorem automatedValidation_score_shape (c : String) (s : SectionSchema) (r : RagData) :
    ∃ q, (automatedValidation c s r).score = pyMaxQ 0 (pyMinQ 1 q) := ⟨_, rfl⟩

theorem combineValidations_score (a l : SectionValidation) :
    (combineValidations a l).score = a.score * (6/10) + l.score * (4/10) := rfl

theorem combineValidations_issues (a l : SectionValidation) :
    (combineValidations a l).issues = a.issues ++ l.issues := rfl

theorem combineValidations_valid_iff (a l : SectionValidation) :
    (combineValidations a l).valid = true ↔
      ((a.issues ++ l.issues).filter (fun i => i.severity == "critical") = [] ∧
       (6/10 : ℚ) ≤ a.score * (6/10) + l.score * (4/10)) := by
  show (((a.issues ++ l.issues).filter (fun i => i.severity == "critical")).isEmpty &&
      decide ((6/10 : ℚ) ≤ a.score * (6/10) + l.score * (4/10))) = true ↔ _
  rw [Bool.and_eq_true, decide_eq_true_eq, List.isEmpty_iff]

theorem validateSection_critical_path (c : String) (s : SectionSchema) (r : RagData)
    (resp : Except Unit String)
    (h : (automatedValidation c s r).issues.filter (fun i => i.severity == "critical") ≠ []) :
    validateSection c s r resp =
      { valid := false, score := (automatedValidation c s r).score,
        issues := (automatedValidation c s r).issues,
        recommendations := (automatedValidation c s r).recommendations,
        validation_method := some "automated" } := by
  unfold validateSection
  rw [if_pos]
  rw [Bool.not_eq_true']
  rw [Bool.eq_false_iff]
  intro hc
  exact h (List.isEmpty_iff.mp hc)

theorem validateSection_clean_path (c : String) (s : SectionSchema) (r : RagData)
    (resp : Except Unit String)
    (h : (automatedValidation c s r).issues.filter (fun i => i.severity == "critical") = []) :
    validateSection c s r resp =
      combineValidations (automatedValidation c s r) (llmValidation resp) := by
  unfold validateSection
  rw [if_neg]
  rw [h]
  simp

/-- C4 (counterexample): the Reviewer's combined score is not clamped.  With
content that passes every automated check (automated score 1) and a model
reply "SCORE: 2.0", the combined SectionValidation score is
0.6·1 + 0.4·2 = 1.4 > 1, so `score ∈ [0,1]` fails on the combined path. -/
theorem validateSection_score_above_one :
    1 < (validateSection contentOkC4 (getSectionSchema .executive_summary) []
      (.ok llmTextC4)).score := by
  have hauto : (automatedValidation contentOkC4 (getSectionSchema .executive_summary) []).score =
      pyMaxQ 0 (pyMinQ 1 (1 - 0 - 0 - 0 - 0 - 0 - ((0 : Nat) : ℚ) * (1/4) -
        ((0 : Nat) : ℚ) * (1/20) - 0)) := rfl
  have hllm : (llmValidation (.ok llmTextC4)).score =
      ((2 : Nat) : ℚ) + ((0 : Nat) : ℚ) / ((10 : ℚ) ^ (1 : Nat)) := rfl
  have hfin : (validateSection contentOkC4 (getSectionSchema .executive_summary) []
      (.ok llmTextC4)).score =
      (automatedValidation contentOkC4 (getSectionSchema .executive_summary) []).score * (6/10) +
      (llmValidation (.ok llmTextC4)).score * (4/10) := rfl
  rw [hfin, hauto, hllm]
  norm_num [pyMaxQ, pyMinQ]

/-- C4 (amended): every SectionValidation score lies in [0,1] on the
automated-only path (the automated score is clamped) and on the degraded
parse-failure path (fixed 0.7); on the combined path it lies in [0,1] whenever
the model score parsed from the LLM reply lies in [0,1] — the code performs no
clamping after the 0.6/0.4 combination, so an out-of-range model score
propagates (see the counterexample). -/
theorem validateSection_score_in_unit_interval (c : String) (s : SectionSchema) (r : RagData)
    (resp : Except Unit String)
    (h0 : 0 ≤ (llmValidation resp).score) (h1 : (llmValidation resp).score ≤ 1) :
    0 ≤ (validateSection c s r resp).score ∧ (validateSection c s r resp).score ≤ 1 := by
  obtain ⟨q, hq⟩ := automatedValidation_score_shape c s r
  have ha0 : 0 ≤ (automatedValidation c s r).score := by
    rw [hq]; exact pyMaxQ_zero_nonneg (pyMinQ 1 q)
  have ha1 : (automatedValidation c s r).score ≤ 1 := by
    rw [hq]; exact pyMaxQ_zero_pyMinQ_one_le_one q
  by_cases hc : (automatedValidation c s r).issues.filter (fun i => i.severity == "critical") = []
  · rw [validateSection_clean_path c s r resp hc, combineValidations_score]
    constructor
    · nlinarith
    · nlinarith
  · rw [validateSection_critical_path c s r resp hc]
    exact ⟨ha0, ha1⟩

/-- C4 (witness): the amended theorem applied on the degraded path, whose
neutral model score 0.7 satisfies the hypothesis. -/
theorem validateSection_score_in_unit_interval_witness :
    (0 ≤ (llmValidation (.error ())).score ∧ (llmValidation (.error ())).score ≤ 1) ∧
    (0 ≤ (validateSection contentOkC4 (getSectionSchema .executive_summary) []
        (.error ())).score ∧
     (validateSection contentOkC4 (getSectionSchema .executive_summary) []
        (.error ())).score ≤ 1) :=
  ⟨⟨by norm_num [llmValidation], by norm_num [llmValidation]⟩,
   validateSection_score_in_unit_interval _ _ _ _
     (by norm_num [llmValidation]) (by norm_num [llmValidation])⟩

/-- C5: when the automated phase finds no critical issue, the Reviewer's final
score is exactly 0.6 × automatedScore + 0.4 × modelScore and final validity
holds iff the union of automated and model issues contains no critical issue
and the combined score is ≥ 0.6; when the automated phase does find a critical
issue, phase 2 is skipped and the result is invalid with the automated score
alone. -/
theorem reviewer_two_phase_combination (c : String) (s : SectionSchema) (r : RagData)
    (resp : Except Unit String) :
    ((automatedValidation c s r).issues.filter (fun i => i.severity == "critical") = [] →
      (validateSection c s r resp).score =
        (automatedValidation c s r).score * (6/10) + (llmValidation resp).score * (4/10) ∧
      ((validateSection c s r resp).valid = true ↔
        (((automatedValidation c s r).issues ++ (llmValidation resp).issues).filter
            (fun i => i.severity == "critical") = [] ∧
         (6/10 : ℚ) ≤ (automatedValidation c s r).score * (6/10) +
           (llmValidation resp).score * (4/10)))) ∧
    ((automatedValidation c s r).issues.filter (fun i => i.severity == "critical") ≠ [] →
      (validateSection c s r resp).valid = false ∧
      (validateSection c s r resp).score = (automatedValidation c s r).score ∧
      (validateSection c s r resp).issues = (automatedValidation c s r).issues ∧
      (validateSection c s r resp).validation_method = some "automated") := by
  constructor
  · intro h
    rw [validateSection_clean_path c s r resp h]
    exact ⟨combineValidations_score _ _, combineValidations_valid_iff _ _⟩
  · intro h
    rw [validateSection_critical_path c s r resp h]
    exact ⟨rfl, rfl, rfl, rfl⟩

/-- C5 (witness): the two-phase law applied to concrete clean content and a
model reply scoring 0.5. -/
theorem reviewer_two_phase_combination_witness :
    (automatedValidation contentOkC4 (getSectionSchema .executive_summary) []).issues.filter
      (fun i => i.severity == "critical") = [] ∧
    ((validateSection contentOkC4 (getSectionSchema .executive_summary) []
        (.ok llmTextC5)).score =
      (automatedValidation contentOkC4 (getSectionSchema .executive_summary) []).score * (6/10) +
      (llmValidation (.ok llmTextC5)).score * (4/10) ∧
     ((validateSection contentOkC4 (getSectionSchema .executive_summary) []
        (.ok llmTextC5)).valid = true ↔
      (((automatedValidation contentOkC4 (getSectionSchema .executive_summary) []).issues ++
          (llmValidation (.ok llmTextC5)).issues).filter
          (fun i => i.severity == "critical") = [] ∧
       (6/10 : ℚ) ≤ (automatedValidation contentOkC4 (getSectionSchema .executive_summary)
          []).score * (6/10) + (llmValidation (.ok llmTextC5)).score * (4/10)))) :=
  ⟨by decide,
   (reviewer_two_phase_combination contentOkC4 (getSectionSchema .executive_summary) []
     (.ok llmTextC5)).1 (by decide)⟩

/-! Retrieval lemmas. -/

theorem retrieveEntry_empty (embed : EmbedFn) (search : SearchFn) (q msg : String)
    (h : (embed q).bind (fun v => search q v) = .ok []) :
    retrieveEntry embed search q msg =
      { found := false, query := q, chunks := [], error := some msg } := by
  unfold retrieveEntry
  rw [h]
  rfl

/-- Looking up a naming-queries entry in the retrieval result. -/
theorem lookup_retrieveNamingConventions (embed : EmbedFn) (search : SearchFn)
    (rt q : String) (h : (rt, q) ∈ namingQueries) :
    (retrieveNamingConventions embed search).lookup rt =
      some (retrieveEntry embed search q
        (rt ++ " naming convention not found in AI Search index")) := by
  fin_cases h <;> rfl

theorem notfound_message_ne_empty (rt : String) :
    rt ++ " naming convention not found in AI Search index" ≠ "" := by
  intro h
  have hl := congrArg String.length h
  rw [String.length_append] at hl
  have h1 : 0 < (" naming convention not found in AI Search index" : String).length := by decide
  have h2 : ("" : String).length = 0 := rfl
  rw [h2] at hl
  omega

theorem length_filterMap_ite {α β : Type} (p : α → Bool) (f : α → β) (l : List α) :
    (l.filterMap (fun e => if p e then some (f e) else none)).length =
      (l.filter p).length := by
  induction l with
  | nil => rfl
  | cons x xs ih => by_cases hx : p x <;> simp [List.filterMap_cons, List.filter_cons, hx, ih]

/-- C8: a retrieval query answered with the empty list produces a
RetrievalDomainResult with `found = false` and a non-empty error string (the
per-entry loop returns a value, never an exception, so the run is not
aborted), and the RAG-summary coverage score equals exactly the number of
found domain entries divided by the total number of domain entries. -/
theorem retrieval_empty_not_found (embed : EmbedFn) (search : SearchFn) (rt q : String)
    (hmem : (rt, q) ∈ namingQueries)
    (hempty : (embed q).bind (fun v => search q v) = .ok []) :
    ((retrieveNamingConventions embed search).lookup rt =
      some { found := false, query := q, chunks := [],
             error := some (rt ++ " naming convention not found in AI Search index") } ∧
     rt ++ " naming convention not found in AI Search index" ≠ "") ∧
    (∀ ragData : RagData, (getRagSummary ragData).coverage_score =
      (((ragSummaryEntries ragData).filter (fun e => e.2.2.found)).length : ℚ) /
        ((ragSummaryEntries ragData).length : ℚ)) := by
  refine ⟨⟨?_, notfound_message_ne_empty rt⟩, ?_⟩
  · rw [lookup_retrieveNamingConventions embed search rt q hmem,
      retrieveEntry_empty embed search q _ hempty]
  · intro ragData
    have hcov : (getRagSummary ragData).coverage_score =
        (if 0 < (ragSummaryEntries ragData).length then
          ((((ragSummaryEntries ragData).filterMap
            (fun e => if e.2.2.found then some (e.1 ++ "." ++ e.2.1) else none)).length : ℚ)) /
            ((ragSummaryEntries ragData).length : ℚ)
         else 0) := rfl
    rw [hcov, @length_filterMap_ite (String × String × DomainResult) String
      (fun e => e.2.2.found) (fun e => e.1 ++ "." ++ e.2.1) (ragSummaryEntries ragData)]
    split
    · rfl
    · have h0 : (ragSummaryEntries ragData).length = 0 := by omega
      rw [h0]
      simp

/-- C8 (witness): the not-found law applied to the `resource_groups` entry with
collaborators that return the empty list. -/
theorem retrieval_empty_not_found_witness :
    (("resource_groups", "resource group naming convention private paas RG pattern GCCC")
        ∈ namingQueries ∧
     ((embedNone "resource group naming convention private paas RG pattern GCCC").bind
       (fun v => searchNone "resource group naming convention private paas RG pattern GCCC" v) =
         .ok [])) ∧
    ((retrieveNamingConventions embedNone searchNone).lookup "resource_groups" =
      some { found := false,
             query := "resource group naming convention private paas RG pattern GCCC",
             chunks := [],
             error := some ("resource_groups" ++
               " naming convention not found in AI Search index") } ∧
     "resource_groups" ++ " naming convention not found in AI Search index" ≠ "") :=
  ⟨⟨by decide, rfl⟩,
   (retrieval_empty_not_found embedNone searchNone "resource_groups"
     "resource group naming convention private paas RG pattern GCCC" (by decide) rfl).1⟩

/-! Orchestrator loop step lemmas. -/

theorem genSectionLoop_retry (s : SectionName) (w : WriterFn) (r : ReviewFn)
    (attempt remaining : Nat) (fb : Option Feedback) (lastV : Option SectionValidation)
    (c : String) (v : SectionValidation)
    (hw : w attempt fb = .ok c) (hr : r c = .ok v) (hv : v.valid = false)
    (hcrit : v.issues.filter (fun i => i.severity == "critical") ≠ []) :
    genSectionLoop s w r attempt (remaining + 1) fb lastV =
      genSectionLoop s w r (attempt + 1) remaining
        (some { issues := v.issues.filter (fun i => i.severity == "critical"),
                recommendations := v.recommendations }) (some v) := by
  have hemp : (v.issues.filter (fun i => i.severity == "critical")).isEmpty = false := by
    rw [Bool.eq_false_iff]
    intro hc
    exact hcrit (List.isEmpty_iff.mp hc)
  simp only [genSectionLoop, hw, hr, hv, hemp, Bool.false_eq_true, if_false,
    Bool.false_and]

theorem genSectionLoop_accept_valid (s : SectionName) (w : WriterFn) (r : ReviewFn)
    (attempt remaining : Nat) (fb : Option Feedback) (lastV : Option SectionValidation)
    (c : String) (v : SectionValidation)
    (hw : w attempt fb = .ok c) (hr : r c = .ok v) (hv : v.valid = true) :
    genSectionLoop s w r attempt (remaining + 1) fb lastV =
      .ok { content := c, validation := v, attempts := attempt + 1 } := by
  simp only [genSectionLoop, hw, hr, hv, if_true]

theorem genSectionLoop_accept_minor (s : SectionName) (w : WriterFn) (r : ReviewFn)
    (attempt remaining : Nat) (fb : Option Feedback) (lastV : Option SectionValidation)
    (c : String) (v : SectionValidation)
    (hw : w attempt fb = .ok c) (hr : r c = .ok v) (hv : v.valid = false)
    (hcrit : v.issues.filter (fun i => i.severity == "critical") = [])
    (hpos : 0 < attempt) :
    genSectionLoop s w r attempt (remaining + 1) fb lastV =
      .ok { content := c, validation := v, attempts := attempt + 1 } := by
  simp only [genSectionLoop, hw, hr, hv, hcrit, Bool.false_eq_true, if_false,
    List.isEmpty_nil, Bool.true_and, decide_eq_true_eq, if_pos hpos]

theorem genSectionLoop_exhausted (s : SectionName) (w : WriterFn) (r : ReviewFn)
    (attempt : Nat) (fb : Option Feedback) (v : SectionValidation) :
    genSectionLoop s w r attempt 0 fb (some v) =
      .ok { content := generateErrorSection s v, validation := v,
            attempts := maxRetries + 1 } := rfl

/-- C2: a Writer whose attempt-1 output triggers exactly one critical issue and
whose attempt-2 output triggers no issues is accepted after exactly 2 attempts
(`attempts = 2`), and the feedback passed into the attempt-2 Writer call is
exactly the attempt-1 critical issue (its description verbatim) together with
the attempt-1 recommendations. -/
theorem orchestrator_retry_law (s : SectionName) (writer : WriterFn) (review : ReviewFn)
    (c0 c1 : String) (v0 v1 : SectionValidation) (i0 : ValidationIssue)
    (hw0 : writer 0 none = .ok c0)
    (hr0 : review c0 = .ok v0)
    (hv0 : v0.valid = false)
    (hcrit0 : v0.issues.filter (fun i => i.severity == "critical") = [i0])
    (hw1 : writer 1 (some { issues := [i0], recommendations := v0.recommendations }) = .ok c1)
    (hr1 : review c1 = .ok v1)
    (hno1 : v1.issues = []) :
    generateSectionWithValidation s writer review =
      .ok { content := c1, validation := v1, attempts := 2 } ∧
    (Feedback.mk [i0] v0.recommendations).issues.map (fun i => i.description) =
      [i0.description] := by
  refine ⟨?_, rfl⟩
  unfold generateSectionWithValidation maxRetries
  rw [genSectionLoop_retry s writer review 0 2 none none c0 v0 hw0 hr0 hv0
    (by rw [hcrit0]; exact List.cons_ne_nil i0 [])]
  rw [hcrit0]
  show genSectionLoop s writer review 1 (1 + 1) _ _ = _
  rcases hv1 : v1.valid with _ | _
  · rw [genSectionLoop_accept_minor s writer review 1 1 _ _ c1 v1 hw1 hr1 hv1
      (by rw [hno1]; rfl) (by omega)]
  · rw [genSectionLoop_accept_valid s writer review 1 1 _ _ c1 v1 hw1 hr1 hv1]

/-! Dict and assembly lemmas. -/

theorem lookup_isSome_iff_mem_keys {α : Type} (d : List (String × α)) (k : String) :
    (d.lookup k).isSome = true ↔ k ∈ d.map Prod.fst := by
  induction d with
  | nil => simp [List.lookup]
  | cons kv d ih =>
    by_cases hk : k = kv.fst
    · simp [List.lookup, hk]
    · have hb : (k == kv.fst) = false := beq_eq_false_iff_ne.mpr hk
      simp [List.lookup, hb, hk, ih]

theorem keys_dictInsert {α : Type} (d : List (String × α)) (k : String) (v : α) :
    (dictInsert d k v).map Prod.fst =
      if (d.lookup k).isSome then d.map Prod.fst else d.map Prod.fst ++ [k] := by
  unfold dictInsert
  split
  · rw [List.map_map]
    apply List.map_congr_left
    intro kv _
    by_cases hk : kv.fst == k
    · have heq : kv.fst = k := eq_of_beq hk
      simp [hk, Function.comp, heq]
    · simp [hk, Function.comp]
  · simp

theorem mem_keys_dictInsert_self {α : Type} (d : List (String × α)) (k : String) (v : α) :
    k ∈ (dictInsert d k v).map Prod.fst := by
  rw [keys_dictInsert]
  split
  · rename_i h
    exact (lookup_isSome_iff_mem_keys d k).mp h
  · exact List.mem_append.mpr (Or.inr (List.mem_singleton.mpr rfl))

theorem mem_keys_dictInsert_preserve {α : Type} (d : List (String × α)) (k : String) (v : α)
    (k' : String) (h : k' ∈ d.map Prod.fst) : k' ∈ (dictInsert d k v).map Prod.fst := by
  rw [keys_dictInsert]
  split
  · exact h
  · exact List.mem_append.mpr (Or.inl h)

/-- Invariant of the Stage 3 fold: every processed section leaves an entry in
both the sections dict and the validation-report dict, and existing entries
survive. -/
theorem runSections_fold_keys (w : SectionName → WriterFn) (rv : SectionName → ReviewFn) :
    ∀ (L : List SectionName)
      (init out : List (String × String) × List (String × SectionValidation)),
    (L.foldlM (fun acc sectionName => do
      let r ← generateSectionWithValidation sectionName (w sectionName) (rv sectionName)
      pure (dictInsert acc.1 sectionName.value r.content,
            dictInsert acc.2 sectionName.value r.validation)) init) = Except.ok out →
    ((∀ k, k ∈ init.1.map Prod.fst → k ∈ out.1.map Prod.fst) ∧
     (∀ k, k ∈ init.2.map Prod.fst → k ∈ out.2.map Prod.fst) ∧
     (∀ sec ∈ L, sec.value ∈ out.1.map Prod.fst ∧ sec.value ∈ out.2.map Prod.fst)) := by
  intro L
  induction L with
  | nil =>
    intro init out h
    have : init = out := by simpa [List.foldlM, pure, Except.pure] using h
    subst this
    exact ⟨fun k hk => hk, fun k hk => hk, by simp⟩
  | cons s L ih =>
    intro init out h
    rw [List.foldlM_cons] at h
    cases hstep : generateSectionWithValidation s (w s) (rv s) with
    | error e => rw [hstep] at h; exact Except.noConfusion h
    | ok r =>
      rw [hstep] at h
      obtain ⟨h1, h2, h3⟩ := ih
        (dictInsert init.1 s.value r.content, dictInsert init.2 s.value r.validation) out h
      refine ⟨?_, ?_, ?_⟩
      · intro k hk
        exact h1 k (mem_keys_dictInsert_preserve _ _ _ _ hk)
      · intro k hk
        exact h2 k (mem_keys_dictInsert_preserve _ _ _ _ hk)
      · intro sec hsec
        rcases List.mem_cons.mp hsec with hsec | hsec
        · subst hsec
          exact ⟨h1 _ (mem_keys_dictInsert_self _ _ _),
                 h2 _ (mem_keys_dictInsert_self _ _ _)⟩
        · exact h3 sec hsec

/-- The section-body fold of `_assemble_tad` in flattened form. -/
theorem body_foldl_append (sections : List (String × String)) :
    ∀ (L : List SectionName) (acc : List String),
    (L.foldl (fun acc sectionName =>
      match sections.lookup sectionName.value with
      | some content => acc ++ [content, "\n---\n"]
      | none => acc) acc) =
    acc ++ (L.map (fun sectionName =>
      match sections.lookup sectionName.value with
      | some content => [content, "\n---\n"]
      | none => [])).flatten := by
  intro L
  induction L with
  | nil => intro acc; simp
  | cons s L ih =>
    intro acc
    rw [List.foldl_cons, List.map_cons, List.flatten_cons, ih]
    cases hl : sections.lookup s.value <;> simp

/-- A section present in the sections dict appears in the assembled parts. -/
theorem content_mem_assembleTadParts (sections : List (String × String))
    (vr : List (String × SectionValidation)) (ctx : NormalizedContext) (rs : RagSummary)
    (stamp : String) (sec : SectionName) (content : String)
    (hmem : sec ∈ getSectionOrder) (hl : sections.lookup sec.value = some content) :
    content ∈ assembleTadParts sections vr ctx rs stamp := by
  unfold assembleTadParts
  rw [body_foldl_append]
  apply List.mem_append.mpr
  refine Or.inl (List.mem_append.mpr (Or.inr ?_))
  rw [List.nil_append]
  apply List.mem_flatten.mpr
  refine ⟨[content, "\n---\n"], ?_, by simp⟩
  have h2 := List.mem_map_of_mem (fun sectionName =>
    match sections.lookup sectionName.value with
    | some content => [content, "\n---\n"]
    | none => ([] : List String)) hmem
  simp only [hl] at h2
  exact h2

/-- C2 (witness): the retry law applied to a concrete writer-reviewer pair. -/
theorem orchestrator_retry_law_witness :
    generateSectionWithValidation .hosting writerRetryW reviewRetryW =
      .ok { content := "draft1", validation := vGoodW, attempts := 2 } ∧
    (Feedback.mk [critIssueW] vBadW.recommendations).issues.map (fun i => i.description) =
      [critIssueW.description] :=
  orchestrator_retry_law .hosting writerRetryW reviewRetryW "draft0" "draft1" vBadW vGoodW
    critIssueW rfl rfl rfl rfl rfl rfl rfl

/-- C1: a section whose Writer output triggers at least one critical issue (and
is hence invalid) on every attempt terminates after exactly 3 attempts
(1 initial + 2 retries) with `attempts = 3`, its returned content is the
synthetic failure placeholder built by `_generate_error_section` — not the raw
invalid content — while the recorded validation is the reviewer's genuine last
validation; furthermore every section processed by the run appears in the
sections dict and the validation report, and its content always appears in the
assembled document parts — no section is silently omitted. -/
theorem orchestrator_exhaustion_law (s : SectionName) (writer : WriterFn) (review : ReviewFn)
    (hwok : ∀ a fb, ∃ c, writer a fb = .ok c)
    (hrok : ∀ c, ∃ v, review c = .ok v)
    (hbad : ∀ c v, review c = .ok v → v.valid = false ∧
      v.issues.filter (fun i => i.severity == "critical") ≠ []) :
    (∃ v : SectionValidation,
      generateSectionWithValidation s writer review =
        .ok { content := generateErrorSection s v, validation := v, attempts := 3 } ∧
      v.valid = false ∧ v.issues.filter (fun i => i.severity == "critical") ≠ [] ∧
      ∃ c, review c = .ok v) ∧
    (∀ (w : SectionName → WriterFn) (rv : SectionName → ReviewFn)
       (secs : List (String × String)) (rep : List (String × SectionValidation)),
      runAllSections w rv = .ok (secs, rep) →
      ∀ sec ∈ getSectionOrder, ∃ content, secs.lookup sec.value = some content ∧
        (rep.lookup sec.value).isSome = true ∧
        ∀ (vr : List (String × SectionValidation)) (ctx : NormalizedContext)
          (rs : RagSummary) (stamp : String),
          content ∈ assembleTadParts secs vr ctx rs stamp) := by
  constructor
  · obtain ⟨c0, hw0⟩ := hwok 0 none
    obtain ⟨v0, hr0⟩ := hrok c0
    obtain ⟨hv0, hc0⟩ := hbad c0 v0 hr0
    obtain ⟨c1, hw1⟩ := hwok 1 (some { issues := v0.issues.filter (fun i => i.severity == "critical"), recommendations := v0.recommendations })
    obtain ⟨v1, hr1⟩ := hrok c1
    obtain ⟨hv1, hc1⟩ := hbad c1 v1 hr1
    obtain ⟨c2, hw2⟩ := hwok 2 (some { issues := v1.issues.filter (fun i => i.severity == "critical"), recommendations := v1.recommendations })
    obtain ⟨v2, hr2⟩ := hrok c2
    obtain ⟨hv2, hc2⟩ := hbad c2 v2 hr2
    refine ⟨v2, ?_, hv2, hc2, c2, hr2⟩
    unfold generateSectionWithValidation maxRetries
    rw [genSectionLoop_retry s writer review 0 2 none none c0 v0 hw0 hr0 hv0 hc0]
    show genSectionLoop s writer review 1 (1 + 1) _ _ = _
    rw [genSectionLoop_retry s writer review 1 1 _ _ c1 v1 hw1 hr1 hv1 hc1]
    show genSectionLoop s writer review 2 (0 + 1) _ _ = _
    rw [genSectionLoop_retry s writer review 2 0 _ _ c2 v2 hw2 hr2 hv2 hc2]
    exact genSectionLoop_exhausted s writer review 3 _ v2
  · intro w rv secs rep h sec hsec
    have hmem3 : sec ∈ stage3Order := by
      have hall : ∀ x ∈ getSectionOrder, x ∈ stage3Order := by decide
      exact hall sec hsec
    obtain ⟨-, -, h3⟩ := runSections_fold_keys w rv stage3Order ([], []) (secs, rep) h
    obtain ⟨hs1, hs2⟩ := h3 sec hmem3
    have hsome : (secs.lookup sec.value).isSome = true :=
      (lookup_isSome_iff_mem_keys secs sec.value).mpr hs1
    obtain ⟨content, hcontent⟩ := Option.isSome_iff_exists.mp hsome
    refine ⟨content, hcontent, (lookup_isSome_iff_mem_keys rep sec.value).mpr hs2, ?_⟩
    intro vr ctx rs stamp
    exact content_mem_assembleTadParts secs vr ctx rs stamp sec content hsec hcontent

/-- C1 (witness): the exhaustion law applied to a concrete always-critical
writer-reviewer pair. -/
theorem orchestrator_exhaustion_law_witness :
    ∃ v : SectionValidation,
      generateSectionWithValidation .hosting writerBadW reviewBadW =
        .ok { content := generateErrorSection .hosting v, validation := v, attempts := 3 } ∧
      v.valid = false ∧ v.issues.filter (fun i => i.severity == "critical") ≠ [] ∧
      ∃ c, reviewBadW c = .ok v :=
  (orchestrator_exhaustion_law .hosting writerBadW reviewBadW
    (fun _ _ => ⟨"x", rfl⟩) (fun _ => ⟨vBadW, rfl⟩)
    (fun c v hv => by
      cases hv
      exact ⟨rfl, by decide⟩)).1

/-! Further orchestrator loop step lemmas (exception branches). -/

theorem genSectionLoop_error_continue (s : SectionName) (w : WriterFn) (r : ReviewFn)
    (attempt remaining : Nat) (fb : Option Feedback) (lastV : Option SectionValidation)
    (e : String) (hne : (attempt == maxRetries) = false)
    (hcase : w attempt fb = .error e ∨ ∃ c, w attempt fb = .ok c ∧ r c = .error e) :
    genSectionLoop s w r attempt (remaining + 1) fb lastV =
      genSectionLoop s w r (attempt + 1) remaining fb lastV := by
  rcases hcase with hw | ⟨c, hw, hr⟩
  · simp only [genSectionLoop, hw, hne, Bool.false_eq_true, if_false]
  · simp only [genSectionLoop, hw, hr, hne, Bool.false_eq_true, if_false]

theorem genSectionLoop_continue (s : SectionName) (w : WriterFn) (r : ReviewFn)
    (attempt remaining : Nat) (fb : Option Feedback) (lastV : Option SectionValidation)
    (c : String) (v : SectionValidation)
    (hw : w attempt fb = .ok c) (hr : r c = .ok v) (hv : v.valid = false)
    (hcond : ((v.issues.filter (fun i => i.severity == "critical")).isEmpty &&
      decide (0 < attempt)) = false) :
    genSectionLoop s w r attempt (remaining + 1) fb lastV =
      genSectionLoop s w r (attempt + 1) remaining
        (some { issues := v.issues.filter (fun i => i.severity == "critical"),
                recommendations := v.recommendations }) (some v) := by
  simp only [genSectionLoop, hw, hr, hv, Bool.false_eq_true, if_false, hcond]

theorem genSectionLoop_last_ok (s : SectionName) (w : WriterFn) (r : ReviewFn)
    (fb : Option Feedback) (lastV : Option SectionValidation)
    (h : ∃ c v, w 2 fb = .ok c ∧ r c = .ok v) :
    ∃ res, genSectionLoop s w r 2 1 fb lastV = .ok res := by
  obtain ⟨c, v, hw, hr⟩ := h
  show ∃ res, genSectionLoop s w r 2 (0 + 1) fb lastV = .ok res
  rcases hv : v.valid with _ | _
  · rcases hcrit : v.issues.filter (fun i => i.severity == "critical") with _ | ⟨i, is⟩
    · exact ⟨_, genSectionLoop_accept_minor s w r 2 0 fb lastV c v hw hr hv hcrit (by omega)⟩
    · rw [genSectionLoop_continue s w r 2 0 fb lastV c v hw hr hv
        (by rw [hcrit]; rfl)]
      exact ⟨_, genSectionLoop_exhausted s w r 3 _ v⟩
  · exact ⟨_, genSectionLoop_accept_valid s w r 2 0 fb lastV c v hw hr hv⟩

theorem genSectionLoop_attempt1_ok (s : SectionName) (w : WriterFn) (r : ReviewFn)
    (fb : Option Feedback) (lastV : Option SectionValidation)
    (hlast : ∀ fb2, ∃ c v, w 2 fb2 = .ok c ∧ r c = .ok v) :
    ∃ res, genSectionLoop s w r 1 2 fb lastV = .ok res := by
  show ∃ res, genSectionLoop s w r 1 (1 + 1) fb lastV = .ok res
  cases hw1 : w 1 fb with
  | error e =>
    rw [genSectionLoop_error_continue s w r 1 1 fb lastV e (by decide) (Or.inl hw1)]
    exact genSectionLoop_last_ok s w r fb lastV (hlast fb)
  | ok c =>
    cases hr1 : r c with
    | error e =>
      rw [genSectionLoop_error_continue s w r 1 1 fb lastV e (by decide)
        (Or.inr ⟨c, hw1, hr1⟩)]
      exact genSectionLoop_last_ok s w r fb lastV (hlast fb)
    | ok v =>
      rcases hv : v.valid with _ | _
      · rcases hcrit : v.issues.filter (fun i => i.severity == "critical") with _ | ⟨i, is⟩
        · exact ⟨_, genSectionLoop_accept_minor s w r 1 1 fb lastV c v hw1 hr1 hv hcrit
            (by omega)⟩
        · rw [genSectionLoop_continue s w r 1 1 fb lastV c v hw1 hr1 hv (by rw [hcrit]; rfl)]
          exact genSectionLoop_last_ok s w r _ _ (hlast _)
      · exact ⟨_, genSectionLoop_accept_valid s w r 1 1 fb lastV c v hw1 hr1 hv⟩

/-- C3 (counterexample): an exception from the generation collaborator local to
one section (here `hosting`) that persists through that section's retry budget
aborts the entire `generate_tad` run — Stage 1 completes (the context is
complete) and Stage 2 succeeds, yet the run terminates with the section-local
error, so section-local failures are not contained. -/
theorem generateTad_aborts_on_single_section_failure :
    generateTad rawComplete "t0" (fun _ => .ok []) writerOneBoom reviewGoodFam
      "g" 0 "ga" = .error "boom" ∧
    (normalizeContext rawComplete "t0").completeness.is_complete = true := by
  constructor
  · rfl
  · rfl

/-- C3 (amended): an exception raised by the generation or retrieval
collaborator during a section's attempts is swallowed and retried while
attempts remain; the per-section loop returns normally — and thus cannot abort
the run or the other sections — whenever the final (3rd) attempt's writer and
reviewer calls both succeed.  Only an exception occurring on the final attempt
propagates and aborts the whole run (as in the counterexample). -/
theorem section_error_containment (s : SectionName) (writer : WriterFn) (review : ReviewFn)
    (hlast : ∀ fb, ∃ c v, writer 2 fb = .ok c ∧ review c = .ok v) :
    ∃ res, generateSectionWithValidation s writer review = .ok res := by
  unfold generateSectionWithValidation maxRetries
  show ∃ res, genSectionLoop s writer review 0 (2 + 1) none none = .ok res
  cases hw0 : writer 0 none with
  | error e =>
    rw [genSectionLoop_error_continue s writer review 0 2 none none e (by decide) (Or.inl hw0)]
    exact genSectionLoop_attempt1_ok s writer review none none hlast
  | ok c =>
    cases hr0 : review c with
    | error e =>
      rw [genSectionLoop_error_continue s writer review 0 2 none none e (by decide)
        (Or.inr ⟨c, hw0, hr0⟩)]
      exact genSectionLoop_attempt1_ok s writer review none none hlast
    | ok v =>
      rcases hv : v.valid with _ | _
      · rw [genSectionLoop_continue s writer review 0 2 none none c v hw0 hr0 hv (by simp)]
        exact genSectionLoop_attempt1_ok s writer review _ _ hlast
      · exact ⟨_, genSectionLoop_accept_valid s writer review 0 2 none none c v hw0 hr0 hv⟩

/-- C3 (witness): transient writer failures on attempts 1 and 2 are contained
when the final attempt succeeds. -/
theorem section_error_containment_witness :
    ∃ res, generateSectionWithValidation .hosting writerFlaky reviewGoodW = .ok res :=
  section_error_containment .hosting writerFlaky reviewGoodW
    (fun _ => ⟨"content", vGoodW, rfl, rfl⟩)

/-- The Stage 3 fold when every per-section generation returns `.ok`. -/
theorem foldlM_all_ok (w : SectionName → WriterFn) (rv : SectionName → ReviewFn)
    (f : SectionName → SectionResult)
    (hgen : ∀ s, generateSectionWithValidation s (w s) (rv s) = .ok (f s)) :
    ∀ (L : List SectionName) (init : List (String × String) × List (String × SectionValidation)),
    (L.foldlM (fun acc sectionName => do
      let r ← generateSectionWithValidation sectionName (w sectionName) (rv sectionName)
      pure (dictInsert acc.1 sectionName.value r.content,
            dictInsert acc.2 sectionName.value r.validation)) init) =
    Except.ok (L.foldl (fun acc s =>
      (dictInsert acc.1 s.value (f s).content, dictInsert acc.2 s.value (f s).validation)) init) := by
  intro L
  induction L with
  | nil => intro init; rfl
  | cons s L ih =>
    intro init
    rw [List.foldlM_cons, hgen s]
    show (L.foldlM _ (dictInsert init.1 s.value (f s).content,
      dictInsert init.2 s.value (f s).validation)) = _
    rw [ih, List.foldl_cons]

theorem dictInsert_fresh {α : Type} (d : List (String × α)) (k : String) (v : α)
    (h : d.lookup k = none) : dictInsert d k v = d ++ [(k, v)] := by
  unfold dictInsert
  rw [h]
  rfl

theorem lookup_append_single_ne {α : Type} (d : List (String × α)) (k k' : String) (v : α)
    (hd : d.lookup k' = none) (hne : k' ≠ k) : (d ++ [(k, v)]).lookup k' = none := by
  induction d with
  | nil => simp [List.lookup, beq_eq_false_iff_ne.mpr hne]
  | cons kv d ih =>
    rw [List.cons_append]
    rw [List.lookup] at hd ⊢
    cases hb : (k' == kv.fst) with
    | true => rw [hb] at hd; exact absurd hd (by simp)
    | false => rw [hb] at hd; exact ih hd

/-- Folding fresh, pairwise-distinct keys into the dicts appends in order. -/
theorem foldl_sections_fresh (f : SectionName → SectionResult) :
    ∀ (L : List SectionName) (acc1 : List (String × String))
      (acc2 : List (String × SectionValidation)),
    L.Pairwise (fun a b => a.value ≠ b.value) →
    (∀ s ∈ L, acc1.lookup s.value = none) →
    (∀ s ∈ L, acc2.lookup s.value = none) →
    (L.foldl (fun acc s =>
      (dictInsert acc.1 s.value (f s).content, dictInsert acc.2 s.value (f s).validation))
      (acc1, acc2)) =
    (acc1 ++ L.map (fun s => (s.value, (f s).content)),
     acc2 ++ L.map (fun s => (s.value, (f s).validation))) := by
  intro L
  induction L with
  | nil => intro acc1 acc2 _ _ _; simp
  | cons s L ih =>
    intro acc1 acc2 hp h1 h2
    obtain ⟨hps, hpL⟩ := List.pairwise_cons.mp hp
    rw [List.foldl_cons]
    show (L.foldl _ (dictInsert acc1 s.value (f s).content,
      dictInsert acc2 s.value (f s).validation)) = _
    rw [dictInsert_fresh acc1 s.value (f s).content (h1 s (List.mem_cons_self s L)),
        dictInsert_fresh acc2 s.value (f s).validation (h2 s (List.mem_cons_self s L))]
    rw [ih (acc1 ++ [(s.value, (f s).content)]) (acc2 ++ [(s.value, (f s).validation)]) hpL
      (fun t ht => lookup_append_single_ne acc1 s.value t.value (f s).content
        (h1 t (List.mem_cons_of_mem s ht)) (fun hh => hps t ht hh.symm))
      (fun t ht => lookup_append_single_ne acc2 s.value t.value (f s).validation
        (h2 t (List.mem_cons_of_mem s ht)) (fun hh => hps t ht hh.symm))]
    simp [List.append_assoc]

set_option maxHeartbeats 1000000 in
/-- C9: the assembled document body lists sections exactly in the
registry-declared order: (1) the parts built by `_assemble_tad` are the fixed
header followed by the present sections in `TAD_SECTION_ORDER` order followed
by the validation report; (2) assembly depends on the sections mapping only
through lookup, so the completion/insertion order of the dict is irrelevant;
(3) a full pipeline run — which generates the three priority sections first,
producing the sections dict in priority-first order — still assembles every
section in registry order. -/
theorem assembly_round_trip :
    (∀ (sections : List (String × String)) (vr : List (String × SectionValidation))
       (ctx : NormalizedContext) (rs : RagSummary) (stamp : String),
      assembleTadParts sections vr ctx rs stamp =
        ["# Technical Architecture Document",
         "## " ++ ctx.project.full_name,
         "\n**Document Version:** 1.0",
         "**Generated:** " ++ stamp,
         "**Status:** Draft for Review",
         "\n---\n"]
        ++ (getSectionOrder.map (fun sectionName =>
              match sections.lookup sectionName.value with
              | some content => [content, "\n---\n"]
              | none => [])).flatten
        ++ [generateValidationReportSection vr rs]) ∧
    (∀ (sections₁ sections₂ : List (String × String))
       (vr : List (String × SectionValidation)) (ctx : NormalizedContext)
       (rs : RagSummary) (stamp : String),
      (∀ k, sections₁.lookup k = sections₂.lookup k) →
      assembleTadParts sections₁ vr ctx rs stamp =
        assembleTadParts sections₂ vr ctx rs stamp) ∧
    (∀ (content : SectionName → String) (v : SectionValidation), v.valid = true →
      runAllSections (fun s _ _ => .ok (content s)) (fun _ _ => .ok v) =
        .ok (stage3Order.map (fun s => (s.value, content s)),
             stage3Order.map (fun s => (s.value, v))) ∧
      (∀ (vr : List (String × SectionValidation)) (ctx : NormalizedContext)
         (rs : RagSummary) (stamp : String),
        assembleTadParts (stage3Order.map (fun s => (s.value, content s))) vr ctx rs stamp =
          ["# Technical Architecture Document",
           "## " ++ ctx.project.full_name,
           "\n**Document Version:** 1.0",
           "**Generated:** " ++ stamp,
           "**Status:** Draft for Review",
           "\n---\n"]
          ++ (getSectionOrder.map (fun s => [content s, "\n---\n"])).flatten
          ++ [generateValidationReportSection vr rs])) := by
  have hshape : ∀ (sections : List (String × String)) (vr : List (String × SectionValidation))
      (ctx : NormalizedContext) (rs : RagSummary) (stamp : String),
      assembleTadParts sections vr ctx rs stamp =
        ["# Technical Architecture Document",
         "## " ++ ctx.project.full_name,
         "\n**Document Version:** 1.0",
         "**Generated:** " ++ stamp,
         "**Status:** Draft for Review",
         "\n---\n"]
        ++ (getSectionOrder.map (fun sectionName =>
              match sections.lookup sectionName.value with
              | some content => [content, "\n---\n"]
              | none => [])).flatten
        ++ [generateValidationReportSection vr rs] := by
    intro sections vr ctx rs stamp
    unfold assembleTadParts
    rw [body_foldl_append, List.nil_append]
  refine ⟨hshape, ?_, ?_⟩
  · intro s1 s2 vr ctx rs stamp h
    rw [hshape, hshape]
    have : (getSectionOrder.map (fun sectionName =>
        match s1.lookup sectionName.value with
        | some content => [content, "\n---\n"]
        | none => ([] : List String))) =
      (getSectionOrder.map (fun sectionName =>
        match s2.lookup sectionName.value with
        | some content => [content, "\n---\n"]
        | none => [])) := by
      apply List.map_congr_left
      intro s _
      rw [h s.value]
    rw [this]
  · intro content v hv
    have hgen : ∀ s, generateSectionWithValidation s
        ((fun s (_ : Nat) (_ : Option Feedback) => Except.ok (content s)) s)
        ((fun (_ : SectionName) (_ : String) => Except.ok v) s) =
        .ok { content := content s, validation := v, attempts := 1 } := by
      intro s
      unfold generateSectionWithValidation maxRetries
      exact genSectionLoop_accept_valid s _ _ 0 2 none none (content s) v rfl rfl hv
    have h1 := foldlM_all_ok _ _
      (fun s => { content := content s, validation := v, attempts := 1 }) hgen
      stage3Order ([], [])
    constructor
    · have h2 := foldl_sections_fresh
        (fun s => { content := content s, validation := v, attempts := 1 })
        stage3Order [] [] (by decide) (fun _ _ => rfl) (fun _ _ => rfl)
      rw [List.nil_append, List.nil_append] at h2
      exact h1.trans (congrArg Except.ok h2)
    · intro vr ctx rs stamp
      rw [hshape]
      have hlk : (getSectionOrder.map (fun sectionName =>
          match (stage3Order.map (fun s => (s.value, content s))).lookup sectionName.value with
          | some c => [c, "\n---\n"]
          | none => ([] : List String))) =
        getSectionOrder.map (fun s => [content s, "\n---\n"]) := by
        apply List.map_congr_left
        intro s hs
        have hl : (stage3Order.map (fun s2 => (s2.value, content s2))).lookup s.value =
            some (content s) := by
          fin_cases hs <;> rfl
        rw [hl]
      rw [hlk]

/-- C9 (witness): the round-trip law applied to a concrete pipeline run whose
writer emits each section's identifier and whose reviewer accepts everything. -/
theorem assembly_round_trip_witness :
    vGoodW.valid = true ∧
    runAllSections (fun s _ _ => .ok s.value) (fun _ _ => .ok vGoodW) =
      .ok (stage3Order.map (fun s => (s.value, s.value)),
           stage3Order.map (fun s => (s.value, vGoodW))) :=
  ⟨rfl, (assembly_round_trip.2.2 (fun s => s.value) vGoodW rfl).1⟩
